/-
Verification of the agenticore job-execution core against its source.

Shallow embedding of:
  src/agenticore/jobs.py    (Job dataclass, job store, update_job, cancel_job,
                             Redis hash encoding in _save_job / get_job)
  src/agenticore/runner.py  (run_job, _execute_claude, _run_subprocess,
                             _extract_session_id)
  src/agenticore/repos.py   (_repo_key, repo_dir, get_default_branch)

External effects (git, subprocesses, the json library, wall-clock time) are
modelled as explicit oracle inputs; every store mutation performed by the code
is recorded so that lifecycle claims can be stated over the persisted history.
-/
import Mathlib

set_option maxHeartbeats 1000000
set_option maxRecDepth 16384

/-! ### Python decimal string representation

Models CPython str() on int values and the int() constructor restricted to
the canonical decimal strings str() produces (Python int() additionally
accepts surrounding whitespace, a leading plus sign and underscores; those
inputs never arise from values written by this program). -/

/-- Little-endian decimal digits of a natural number (empty for zero). -/
def natDigitsRev (n : Nat) : List Char :=
  if h : n = 0 then [] else
    Nat.digitChar (n % 10) :: natDigitsRev (n / 10)
decreasing_by exact Nat.div_lt_self (Nat.pos_of_ne_zero h) (by norm_num)

/-- Python str() of a non-negative integer. -/
def pyStrNat (n : Nat) : String :=
  if n = 0 then "0" else String.mk (natDigitsRev n).reverse

/-- Python str() of an integer (minus sign followed by digits when negative). -/
def pyStrInt (n : Int) : String :=
  if n < 0 then "-" ++ pyStrNat (-n).toNat else pyStrNat n.toNat

/-- Decimal value of a digit character. -/
def digitVal (c : Char) : Nat := c.toNat - 48

/-- Parse a non-empty all-digit character list as a natural number. -/
def parseNatChars (cs : List Char) : Option Nat :=
  if cs ≠ [] ∧ cs.all (fun c => c.isDigit) then
    some (cs.foldl (fun a c => a * 10 + digitVal c) 0)
  else none

/-- Python int() on a canonical decimal string (optional minus sign). -/
def pyParseInt (s : String) : Option Int :=
  match s.data with
  | [] => none
  | c :: rest =>
    if c = '-' then (parseNatChars rest).map (fun v => -(v : Int))
    else (parseNatChars (c :: rest)).map (fun v => (v : Int))

/-- Python int() where the program treats a parse failure as unreachable
(jobs.py only ever applies int() to values it previously wrote with str()). -/
def pyInt (s : String) : Int := (pyParseInt s).getD 0

/-! ### JSON-ish values and Python dicts

The job record is serialized through Python dicts whose values are strings
or integers (jobs.py never stores nested structures).  An entry whose value
is the Python literal None is modelled with Option.none. -/

/-- A scalar value stored in a job dict. -/
inductive JVal where
  | str (s : String)
  | int (n : Int)
deriving DecidableEq

/-- A Python dict from string keys to scalar-or-None values, in insertion
order. -/
abbrev PyDict := List (String × Option JVal)

/-- dict lookup (data.get(k) with no default): the value at the first
matching key, Option.none both for an absent key and for a None value. -/
def pyGetRaw (d : PyDict) (k : String) : Option (Option JVal) :=
  match d with
  | [] => none
  | (k1, v) :: rest => if k1 = k then some v else pyGetRaw rest k

/-! ### The Job dataclass (jobs.py lines 16-60) -/

/-- Job: one request to run the agent, mirroring the dataclass field for
field (defaults identical to the source). -/
structure Job where
  id : String := ""
  repo_url : String := ""
  base_ref : String := "main"
  task : String := ""
  profile : String := "code"
  status : String := "queued"
  mode : String := "fire_and_forget"
  exit_code : Option Int := none
  session_id : Option String := none
  pr_url : Option String := none
  output : Option String := none
  error : Option String := none
  created_at : String := ""
  started_at : Option String := none
  ended_at : Option String := none
  ttl_seconds : Int := 86400
  pid : Option Int := none
deriving DecidableEq

/-- dataclasses.asdict: every field, in declaration order, None for absent
optional fields. -/
def Job.asdict (j : Job) : PyDict :=
  [ ("id", some (.str j.id)),
    ("repo_url", some (.str j.repo_url)),
    ("base_ref", some (.str j.base_ref)),
    ("task", some (.str j.task)),
    ("profile", some (.str j.profile)),
    ("status", some (.str j.status)),
    ("mode", some (.str j.mode)),
    ("exit_code", j.exit_code.map .int),
    ("session_id", j.session_id.map .str),
    ("pr_url", j.pr_url.map .str),
    ("output", j.output.map .str),
    ("error", j.error.map .str),
    ("created_at", some (.str j.created_at)),
    ("started_at", j.started_at.map .str),
    ("ended_at", j.ended_at.map .str),
    ("ttl_seconds", some (.int j.ttl_seconds)),
    ("pid", j.pid.map .int) ]

/-- Job.to_dict: the asdict entries whose value is not None. -/
def Job.to_dict (j : Job) : PyDict :=
  j.asdict.filter (fun p => p.2 ≠ none)

/-- data.get(k, default) for a string-typed field.  A present entry of a
different shape (None or an int) would propagate dynamically in Python;
no caller of from_dict produces one, and the model falls back to the
default there. -/
def getStrD (d : PyDict) (k dflt : String) : String :=
  match pyGetRaw d k with
  | some (some (.str s)) => s
  | _ => dflt

/-- data.get(k) for an optional string-typed field. -/
def getOptStr (d : PyDict) (k : String) : Option String :=
  match pyGetRaw d k with
  | some (some (.str s)) => some s
  | _ => none

/-- data.get(k) for an optional integer-typed field. -/
def getOptInt (d : PyDict) (k : String) : Option Int :=
  match pyGetRaw d k with
  | some (some (.int n)) => some n
  | _ => none

/-- int(data.get(k, default)): int() of an int is that int; int() of a
string parses it. -/
def getIntD (d : PyDict) (k : String) (dflt : Int) : Int :=
  match pyGetRaw d k with
  | some (some (.int n)) => n
  | some (some (.str s)) => (pyParseInt s).getD dflt
  | _ => dflt

/-- Job.from_dict (jobs.py lines 39-60). -/
def Job.from_dict (d : PyDict) : Job :=
  { id := getStrD d "id" ""
    repo_url := getStrD d "repo_url" ""
    base_ref := getStrD d "base_ref" "main"
    task := getStrD d "task" ""
    profile := getStrD d "profile" "code"
    status := getStrD d "status" "queued"
    mode := getStrD d "mode" "fire_and_forget"
    exit_code := getOptInt d "exit_code"
    session_id := getOptStr d "session_id"
    pr_url := getOptStr d "pr_url"
    output := getOptStr d "output"
    error := getOptStr d "error"
    created_at := getStrD d "created_at" ""
    started_at := getOptStr d "started_at"
    ended_at := getOptStr d "ended_at"
    ttl_seconds := getIntD d "ttl_seconds" 86400
    pid := getOptInt d "pid" }

/-! ### Dynamic field access (setattr / hasattr in update_job)

update_job applies keyword arguments with setattr after a hasattr check;
we model an attribute name as an element of a field enumeration and a
keyword value as a scalar-or-None. -/

/-- A value passed as a keyword argument to update_job. -/
inductive FVal where
  | s (v : String)
  | i (n : Int)
  | null
deriving DecidableEq

/-- The attribute names of the Job dataclass. -/
inductive JField where
  | id | repo_url | base_ref | task | profile | status | mode
  | exit_code | session_id | pr_url | output | error
  | created_at | started_at | ended_at | ttl_seconds | pid
deriving DecidableEq

/-- The Python attribute name of a field. -/
def fieldName : JField → String
  | .id => "id" | .repo_url => "repo_url" | .base_ref => "base_ref"
  | .task => "task" | .profile => "profile" | .status => "status"
  | .mode => "mode" | .exit_code => "exit_code" | .session_id => "session_id"
  | .pr_url => "pr_url" | .output => "output" | .error => "error"
  | .created_at => "created_at" | .started_at => "started_at"
  | .ended_at => "ended_at" | .ttl_seconds => "ttl_seconds" | .pid => "pid"

/-- The Job attribute list, in declaration order. -/
def jfields : List JField :=
  [.id, .repo_url, .base_ref, .task, .profile, .status, .mode, .exit_code,
   .session_id, .pr_url, .output, .error, .created_at, .started_at,
   .ended_at, .ttl_seconds, .pid]

/-- hasattr(job, k): the attribute named k, if any. -/
def knownField? (k : String) : Option JField :=
  jfields.find? (fun f => fieldName f = k)

/-- setattr on a known field.  A value whose shape does not match the
field's dataclass type is left unapplied (Python would store it untyped;
no caller of update_job passes such a value). -/
def Job.setF (j : Job) (f : JField) (v : FVal) : Job :=
  match f, v with
  | .id, .s x => { j with id := x }
  | .repo_url, .s x => { j with repo_url := x }
  | .base_ref, .s x => { j with base_ref := x }
  | .task, .s x => { j with task := x }
  | .profile, .s x => { j with profile := x }
  | .status, .s x => { j with status := x }
  | .mode, .s x => { j with mode := x }
  | .exit_code, .i x => { j with exit_code := some x }
  | .exit_code, .null => { j with exit_code := none }
  | .session_id, .s x => { j with session_id := some x }
  | .session_id, .null => { j with session_id := none }
  | .pr_url, .s x => { j with pr_url := some x }
  | .pr_url, .null => { j with pr_url := none }
  | .output, .s x => { j with output := some x }
  | .output, .null => { j with output := none }
  | .error, .s x => { j with error := some x }
  | .error, .null => { j with error := none }
  | .created_at, .s x => { j with created_at := x }
  | .started_at, .s x => { j with started_at := some x }
  | .started_at, .null => { j with started_at := none }
  | .ended_at, .s x => { j with ended_at := some x }
  | .ended_at, .null => { j with ended_at := none }
  | .ttl_seconds, .i x => { j with ttl_seconds := x }
  | .pid, .i x => { j with pid := some x }
  | .pid, .null => { j with pid := none }
  | _, _ => j

/-- One update_job keyword: setattr if hasattr, silently skipped otherwise
(jobs.py lines 189-191). -/
def Job.setField (j : Job) (k : String) (v : FVal) : Job :=
  match knownField? k with
  | some f => j.setF f v
  | none => j

/-- Read a field back as a scalar-or-None (used to state frame conditions). -/
def Job.projF (j : Job) (f : JField) : FVal :=
  match f with
  | .id => .s j.id | .repo_url => .s j.repo_url | .base_ref => .s j.base_ref
  | .task => .s j.task | .profile => .s j.profile | .status => .s j.status
  | .mode => .s j.mode
  | .exit_code => match j.exit_code with | some n => .i n | none => .null
  | .session_id => match j.session_id with | some s => .s s | none => .null
  | .pr_url => match j.pr_url with | some s => .s s | none => .null
  | .output => match j.output with | some s => .s s | none => .null
  | .error => match j.error with | some s => .s s | none => .null
  | .created_at => .s j.created_at
  | .started_at => match j.started_at with | some s => .s s | none => .null
  | .ended_at => match j.ended_at with | some s => .s s | none => .null
  | .ttl_seconds => .i j.ttl_seconds
  | .pid => match j.pid with | some n => .i n | none => .null

/-! ### The job store (jobs.py public API)

The two persistence backends always hold the record keyed by the job id;
a store is modelled as an association list from id to record.  save
overwrites the record keyed by the job's own id (as _save_job does with
the file named after job.id). -/

/-- The persisted job records, keyed by id. -/
abbrev Store := List (String × Job)

/-- get_job: the record stored under an id. -/
def Store.get (st : Store) (id : String) : Option Job :=
  match st with
  | [] => none
  | (k, j) :: rest => if k = id then some j else Store.get rest id

/-- _save_job: overwrite the record keyed by the job's id (insert if new). -/
def Store.save (st : Store) (j : Job) : Store :=
  match st with
  | [] => [(j.id, j)]
  | (k, o) :: rest => if k = j.id then (k, j) :: rest else (k, o) :: Store.save rest j

/-- Apply update_job keyword arguments left to right. -/
def applyKwargs (j : Job) (kwargs : List (String × FVal)) : Job :=
  kwargs.foldl (fun a kv => a.setField kv.1 kv.2) j

/-- update_job (jobs.py lines 183-194): read, apply provided fields,
re-persist; absent record gives back None with nothing created. -/
def update_job (st : Store) (id : String) (kwargs : List (String × FVal)) :
    Store × Option Job :=
  match Store.get st id with
  | none => (st, none)
  | some j =>
    let j2 := applyKwargs j kwargs
    (st.save j2, some j2)

/-- An observable side effect on the operating system. -/
inductive Effect where
  | kill (pid : Int) (sig : Nat)
  | spawn
deriving DecidableEq

/-- cancel_job (jobs.py lines 244-260): no-op on a missing or terminal
record; otherwise best-effort SIGTERM to the recorded pid and a transition
to cancelled with ended_at stamped. -/
def cancel_job (st : Store) (id : String) (now : String) :
    Store × Option Job × List Effect :=
  match Store.get st id with
  | none => (st, none, [])
  | some j =>
    if j.status = "queued" ∨ j.status = "running" then
      let effs := match j.pid with
        | some p => [Effect.kill p 15]
        | none => []
      let r := update_job st id [("status", .s "cancelled"), ("ended_at", .s now)]
      (r.1, r.2, effs)
    else
      (st, some j, [])

/-! ### Redis hash encoding (jobs.py _save_job lines 263-278, get_job 155-172)

A Redis hash is a list of string-keyed string fields.  _save_job writes
str(v) for a non-None value and the sentinel "None" otherwise -- but it
iterates over to_dict(), which has already dropped every None value, so
the sentinel branch never fires; both branches are kept here as in the
source. -/

/-- Python str() of a dict value. -/
def pyStrOfJVal : JVal → String
  | .str s => s
  | .int n => pyStrInt n

/-- str(v) if v is not None else "None" (jobs.py line 270). -/
def encVal : Option JVal → String
  | some v => pyStrOfJVal v
  | none => "None"

/-- The Redis hash written by _save_job for a job. -/
def saveRedisHash (j : Job) : List (String × String) :=
  j.to_dict.map (fun p => (p.1, encVal p.2))

/-- Lookup in a Redis hash. -/
def hfind (h : List (String × String)) (k : String) : Option String :=
  match h with
  | [] => none
  | (k1, v) :: rest => if k1 = k then some v else hfind rest k

/-- get_job's in-place conversions on the hash read back from Redis:
exit_code and pid become ints unless they hold the "None" sentinel,
ttl_seconds always becomes an int, everything else stays a string. -/
def decodeRedisEntry (k v : String) : Option JVal :=
  if k = "exit_code" ∨ k = "pid" then
    (if v ≠ "None" then some (.int (pyInt v)) else none)
  else if k = "ttl_seconds" then some (.int (pyInt v))
  else some (.str v)

/-- get_job's Redis branch: convert the hash, then Job.from_dict. -/
def jobOfRedisHash (h : List (String × String)) : Job :=
  Job.from_dict (h.map (fun p => (p.1, decodeRedisEntry p.1 p.2)))

/-! ### Session-id extraction (runner.py _extract_session_id lines 73-86)

json.loads is an external library call, modelled as an oracle taking the
line to the key-value pairs of the JSON object it denotes (a parsed value
beginning with an opening brace is always an object), or none when parsing
raises. -/

/-- A Python value as produced by json.loads. -/
inductive PyVal where
  | str (s : String)
  | int (n : Int)
  | bool (b : Bool)
  | null
  | arr (xs : List PyVal)
  | obj (fields : List (String × PyVal))

/-- Python truthiness of a json.loads value. -/
def PyVal.truthy : PyVal → Bool
  | .str s => s ≠ ""
  | .int n => n ≠ 0
  | .bool b => b
  | .null => false
  | .arr xs => !xs.isEmpty
  | .obj fs => !fs.isEmpty

/-- data.get(k) on a parsed JSON object (None when the key is absent). -/
def pyDictGet (d : List (String × PyVal)) (k : String) : PyVal :=
  match d with
  | [] => .null
  | (k1, v) :: rest => if k1 = k then v else pyDictGet rest k

/-- The Python or operator: the first operand if truthy, else the second. -/
def pyOr (a b : PyVal) : PyVal := if a.truthy then a else b

/-- Whitespace stripped by str.strip(). -/
def isPySpace (c : Char) : Bool :=
  c = ' ' ∨ c = '\t' ∨ c = '\n' ∨ c = '\r' ∨ c = Char.ofNat 11 ∨ c = Char.ofNat 12

/-- Python str.strip(). -/
def pyStrip (s : String) : String :=
  String.mk (((s.data.dropWhile isPySpace).reverse.dropWhile isPySpace).reverse)

/-- Python str.splitlines() over the character list (newline, carriage
return and CRLF separate lines; a trailing terminator opens no extra
empty line). -/
def splitlinesAux : List Char → List Char → List String
  | [], acc => if acc.isEmpty then [] else [String.mk acc.reverse]
  | '\r' :: '\n' :: rest, acc => String.mk acc.reverse :: splitlinesAux rest []
  | '\n' :: rest, acc => String.mk acc.reverse :: splitlinesAux rest []
  | '\r' :: rest, acc => String.mk acc.reverse :: splitlinesAux rest []
  | c :: rest, acc => splitlinesAux rest (c :: acc)

/-- Python str.splitlines(). -/
def pySplitlines (s : String) : List String := splitlinesAux s.data []

/-- The json.loads oracle: the object fields of a line, if it parses. -/
abbrev JParse := String → Option (List (String × PyVal))

/-- The loop body of _extract_session_id over an already reversed line
list: skip a line whose stripped form does not start with an opening
brace or does not parse; on a parsed object take session_id, falling back
to sessionId, and return it when truthy. -/
def extractGo (jparse : JParse) : List String → Option PyVal
  | [] => none
  | line :: rest =>
    let l := pyStrip line
    if l.startsWith "\x7b" then
      match jparse l with
      | some data =>
        let sid := pyOr (pyDictGet data "session_id") (pyDictGet data "sessionId")
        if sid.truthy then some sid else extractGo jparse rest
      | none => extractGo jparse rest
    else extractGo jparse rest

/-- _extract_session_id: scan the output's lines in reverse order. -/
def extract_session_id (jparse : JParse) (output_text : String) : Option PyVal :=
  extractGo jparse (pySplitlines output_text).reverse

/-- The session value a single line yields, if any (used to specify
extract_session_id as a search). -/
def lineSid (jparse : JParse) (line : String) : Option PyVal :=
  let l := pyStrip line
  if l.startsWith "\x7b" then
    match jparse l with
    | some data =>
      let sid := pyOr (pyDictGet data "session_id") (pyDictGet data "sessionId")
      if sid.truthy then some sid else none
    | none => none
  else none

/-! ### The runner (runner.py run_job / _execute_claude / _run_subprocess)

Every interaction with the outside world is an oracle field of RunEnv:
profile resolution, clone and default-branch git calls, profile
materialization, the spawned subprocess's fate, auto-PR creation, json
parsing and the wall clock (one fresh timestamp per _now_iso() call).
The runner state records the store, the sequence of persisted records
(one per update_job call that found the record) and the OS effects. -/

/-- The resolved profile fields the runner consumes. -/
structure ClaudeProfile where
  timeout : Nat
  auto_pr : Bool

/-- The fate of the spawned subprocess's communicate() wait. -/
inductive CommResult where
  | timeout
  | exc (msg : String)
  | done (returncode : Int) (stdout : String) (stderr : String)

/-- The fate of create_subprocess_exec: the binary may be missing, else a
process with a pid is spawned and its wait concludes as CommResult. -/
inductive SpawnResult where
  | fileNotFound
  | spawned (pid : Int) (comm : CommResult)

/-- The oracle environment one run_job call executes against. -/
structure RunEnv where
  get_profile : String → Option ClaudeProfile
  ensure_clone : String → Except String String
  branch_of : String → Except String String
  materialize : Except String Unit
  spawn : SpawnResult
  auto_pr : Except String (Option String)
  jparse : JParse
  binary : String
  clock : Nat → String

/-- Runner-side state: the store plus the persisted history and effects. -/
structure RState where
  store : Store
  hist : List Job
  effs : List Effect
  tick : Nat

/-- _now_iso(): consume the next clock value. -/
def RState.now (s : RState) (env : RunEnv) : RState × String :=
  ({ s with tick := s.tick + 1 }, env.clock s.tick)

/-- An update_job call made by the runner, recording the persisted record. -/
def RState.upd (s : RState) (id : String) (kwargs : List (String × FVal)) :
    RState × Option Job :=
  let r := update_job s.store id kwargs
  ({ s with
      store := r.1,
      hist := s.hist ++ (match r.2 with | some j => [j] | none => []) },
   r.2)

/-- Record an OS effect. -/
def RState.addEff (s : RState) (e : Effect) : RState :=
  { s with effs := s.effs ++ [e] }

/-- _prepare_job_repo guarded by the repo_url truthiness test in run_job:
no clone for a repo-less job; otherwise ensure_clone, and default-branch
detection only when job.base_ref is empty (Python or).  An error value is
the exception message caught by run_job. -/
def prepStage (env : RunEnv) (j : Job) : Except String (Option String × String) :=
  if j.repo_url = "" then .ok (none, j.base_ref)
  else
    match env.ensure_clone j.repo_url with
    | .error e => .error e
    | .ok cwd =>
      if j.base_ref = "" then
        match env.branch_of cwd with
        | .error e => .error e
        | .ok b => .ok (some cwd, b)
      else .ok (some cwd, j.base_ref)

/-- Python string slicing s[:n]: the first n characters (structural in
the character list, so it evaluates even for large n). -/
def pyTruncate (s : String) (n : Nat) : String := String.mk (s.data.take n)

/-- The keyword list for the session-id update.  extract_session_id only
returns truthy values, so the Python truthiness test is exactly the
isSome test; a non-scalar session value is outside the typed record and
never produced by the agent. -/
def sessionKwargs : Option PyVal → List (String × FVal)
  | some (.str s) => [("session_id", .s s)]
  | some (.int n) => [("session_id", .i n)]
  | some _ => []
  | none => []

/-- _run_subprocess and _execute_claude (runner.py lines 113-223),
starting from the state holding after the running transition. -/
def execute_claude (env : RunEnv) (s : RState) (j : Job) (prof : ClaudeProfile) :
    RState × Option Job :=
  match env.spawn with
  | .fileNotFound =>
    let p1 := s.now env
    p1.1.upd j.id [("status", .s "failed"),
                   ("error", .s ("Claude binary not found: " ++ env.binary)),
                   ("ended_at", .s p1.2)]
  | .spawned pid comm =>
    let s1 := (s.addEff .spawn).upd j.id [("pid", .i pid)]
    match comm with
    | .timeout =>
      let p2 := s1.1.now env
      p2.1.upd j.id [("status", .s "failed"),
                     ("error", .s ("Timeout after " ++ pyStrNat prof.timeout ++ "s")),
                     ("exit_code", .i (-1)),
                     ("ended_at", .s p2.2)]
    | .exc msg =>
      let p2 := s1.1.now env
      p2.1.upd j.id [("status", .s "failed"), ("error", .s msg),
                     ("ended_at", .s p2.2)]
    | .done rc out err =>
      let sid := extract_session_id env.jparse out
      let s2 := match sid with
        | some v => ((s1.1).upd j.id (sessionKwargs (some v))).1
        | none => s1.1
      let status := if rc = 0 then "succeeded" else "failed"
      let p3 := s2.now env
      let r := p3.1.upd j.id
        [("status", .s status),
         ("exit_code", .i rc),
         ("output", .s (pyTruncate out 50000)),
         ("error", if err ≠ "" then .s (pyTruncate err 10000) else .null),
         ("ended_at", .s p3.2)]
      if status = "succeeded" ∧ prof.auto_pr ∧ j.repo_url ≠ "" then
        match env.auto_pr with
        | .ok (some url) =>
          if url ≠ "" then r.1.upd j.id [("pr_url", .s url)] else r
        | .ok none => r
        | .error _ => r
      else r

/-- run_job (runner.py lines 142-181).  The try/finally telemetry block
only reads the store (get_job, ship_transcript, end_job_trace) and is
omitted. -/
def run_job (env : RunEnv) (s : RState) (j : Job) : RState × Option Job :=
  match env.get_profile j.profile with
  | none =>
    let p1 := s.now env
    p1.1.upd j.id [("status", .s "failed"),
                   ("error", .s ("Profile not found: " ++ j.profile)),
                   ("ended_at", .s p1.2)]
  | some prof =>
    let p1 := s.now env
    let s2 := (p1.1.upd j.id [("status", .s "running"), ("started_at", .s p1.2)]).1
    match prepStage env j with
    | .error e =>
      let p2 := s2.now env
      p2.1.upd j.id [("status", .s "failed"),
                     ("error", .s ("Clone failed: " ++ e)),
                     ("ended_at", .s p2.2)]
    | .ok (cwd, _base_ref) =>
      match (match cwd with | some _ => env.materialize | none => .ok ()) with
      | .error e =>
        let p2 := s2.now env
        p2.1.upd j.id [("status", .s "failed"),
                       ("error", .s ("Profile materialization failed: " ++ e)),
                       ("ended_at", .s p2.2)]
      | .ok () => execute_claude env s2 j prof

/-! ### Job state machine vocabulary (spec 4.3) -/

/-- A terminal status is anything other than queued and running. -/
def terminalStatus (s : String) : Bool := s ≠ "queued" ∧ s ≠ "running"

/-- Position along the queued - running - terminal chain. -/
def statusLevel (s : String) : Nat :=
  if s = "queued" then 0 else if s = "running" then 1 else 2

/-- One persisted transition respects the state machine: the level never
decreases and a terminal status is never left. -/
def stepOk (a b : Job) : Prop :=
  statusLevel a.status ≤ statusLevel b.status ∧
    (terminalStatus a.status → b.status = a.status)

/-! ### Repository cache (repos.py) -/

/-- Drop everything up to and including the first slash
(str.split with one split, second component). -/
def afterFirstSlash (s : String) : String :=
  String.mk ((s.data.dropWhile (fun c => c != '/')).drop 1)

/-- get_default_branch (repos.py lines 157-167) over the outcome of the
git symbolic-ref invocation: _run_git raising propagates (error holds the
exception message); on success the stripped stdout is reduced to the part
after the first slash when one is present, with "main" only for an empty
result. -/
def get_default_branch (gitResult : Except String String) : Except String String :=
  match gitResult with
  | .error e => .error e
  | .ok out =>
    let branch := pyStrip out
    let branch2 := if '/' ∈ branch.data then afterFirstSlash branch else branch
    .ok (if branch2 = "" then "main" else branch2)

/-! ### SHA-256 (hashlib.sha256, used by repos._repo_key)

Pure implementation over byte lists, 32-bit words as naturals reduced
modulo 2 to the 32. -/

/-- Reduce modulo 2 to the 32. -/
def w32 (x : Nat) : Nat := x % 4294967296

/-- Rotate a 32-bit word right. -/
def rotr32 (x n : Nat) : Nat := w32 ((x >>> n) ||| (x <<< (32 - n)))

/-- Bitwise complement on 32 bits. -/
def bnot32 (x : Nat) : Nat := x ^^^ 4294967295

/-- SHA-256 round constants. -/
def sha256K : List Nat :=
  [1116352408, 1899447441, 3049323471, 3921009573, 961987163, 1508970993,
   2453635748, 2870763221, 3624381080, 310598401, 607225278, 1426881987,
   1925078388, 2162078206, 2614888103, 3248222580, 3835390401, 4022224774,
   264347078, 604807628, 770255983, 1249150122, 1555081692, 1996064986,
   2554220882, 2821834349, 2952996808, 3210313671, 3336571891, 3584528711,
   113926993, 338241895, 666307205, 773529912, 1294757372, 1396182291,
   1695183700, 1986661051, 2177026350, 2456956037, 2730485921, 2820302411,
   3259730800, 3345764771, 3516065817, 3600352804, 4094571909, 275423344,
   430227734, 506948616, 659060556, 883997877, 958139571, 1322822218,
   1537002063, 1747873779, 1955562222, 2024104815, 2227730452, 2361852424,
   2428436474, 2756734187, 3204031479, 3329325298]

/-- Working variables of the compression function. -/
structure Sha256H where
  a : Nat
  b : Nat
  c : Nat
  d : Nat
  e : Nat
  f : Nat
  g : Nat
  h : Nat

/-- Initial hash value. -/
def sha256init : Sha256H :=
  ⟨1779033703, 3144134277, 1013904242, 2773480762,
   1359893119, 2600822924, 528734635, 1541459225⟩

/-- One compression round. -/
def sha256round (s : Sha256H) (k w : Nat) : Sha256H :=
  let s1 := rotr32 s.e 6 ^^^ rotr32 s.e 11 ^^^ rotr32 s.e 25
  let ch := (s.e &&& s.f) ^^^ (bnot32 s.e &&& s.g)
  let t1 := w32 (s.h + s1 + ch + k + w)
  let s0 := rotr32 s.a 2 ^^^ rotr32 s.a 13 ^^^ rotr32 s.a 22
  let mj := (s.a &&& s.b) ^^^ (s.a &&& s.c) ^^^ (s.b &&& s.c)
  let t2 := w32 (s0 + mj)
  ⟨w32 (t1 + t2), s.a, s.b, s.c, w32 (s.d + t1), s.e, s.f, s.g⟩

/-- Big-endian 32-bit words of a byte list. -/
def beWords : List Nat → List Nat
  | a :: b :: c :: d :: rest => (((a * 256 + b) * 256 + c) * 256 + d) :: beWords rest
  | _ => []

/-- Indexing with default zero into the schedule. -/
def getW (l : List Nat) (i : Nat) : Nat := l.getD i 0

/-- Extend the message schedule by one word. -/
def extendScheduleStep (l : List Nat) : List Nat :=
  let n := l.length
  let s0 := rotr32 (getW l (n - 15)) 7 ^^^ rotr32 (getW l (n - 15)) 18 ^^^ (getW l (n - 15) >>> 3)
  let s1 := rotr32 (getW l (n - 2)) 17 ^^^ rotr32 (getW l (n - 2)) 19 ^^^ (getW l (n - 2) >>> 10)
  l ++ [w32 (getW l (n - 16) + s0 + getW l (n - 7) + s1)]

/-- The 64-word message schedule of one chunk. -/
def msgSchedule (ws : List Nat) : List Nat :=
  (List.range 48).foldl (fun l _ => extendScheduleStep l) ws

/-- Compress one 64-byte chunk into the hash state. -/
def sha256compress (h0 : Sha256H) (chunk : List Nat) : Sha256H :=
  let ws := msgSchedule (beWords chunk)
  let s := (sha256K.zip ws).foldl (fun s kw => sha256round s kw.1 kw.2) h0
  ⟨w32 (h0.a + s.a), w32 (h0.b + s.b), w32 (h0.c + s.c), w32 (h0.d + s.d),
   w32 (h0.e + s.e), w32 (h0.f + s.f), w32 (h0.g + s.g), w32 (h0.h + s.h)⟩

/-- Big-endian 8-byte encoding of a length in bits. -/
def be64bytes (n : Nat) : List Nat :=
  [(n >>> 56) % 256, (n >>> 48) % 256, (n >>> 40) % 256, (n >>> 32) % 256,
   (n >>> 24) % 256, (n >>> 16) % 256, (n >>> 8) % 256, n % 256]

/-- SHA-256 padding: one 128 byte, zeros to 56 mod 64, the bit length. -/
def sha256pad (msg : List Nat) : List Nat :=
  let L := msg.length
  let k := (120 - ((L + 1) % 64)) % 64
  msg ++ 128 :: (List.replicate k 0 ++ be64bytes (8 * L))

/-- Split into 64-byte chunks (structural recursion on a fuel bound so
that evaluation reduces inside the kernel; any fuel at least the list
length yields all chunks). -/
def chunks64go : Nat → List Nat → List (List Nat)
  | 0, _ => []
  | fuel + 1, l => if l = [] then [] else l.take 64 :: chunks64go fuel (l.drop 64)

/-- Split into 64-byte chunks. -/
def chunks64 (l : List Nat) : List (List Nat) := chunks64go l.length l

/-- Lowercase hex of one 32-bit word (hashlib hexdigest alphabet). -/
def wordHex (x : Nat) : List Char :=
  [Nat.digitChar ((x >>> 28) % 16), Nat.digitChar ((x >>> 24) % 16),
   Nat.digitChar ((x >>> 20) % 16), Nat.digitChar ((x >>> 16) % 16),
   Nat.digitChar ((x >>> 12) % 16), Nat.digitChar ((x >>> 8) % 16),
   Nat.digitChar ((x >>> 4) % 16), Nat.digitChar (x % 16)]

/-- hashlib.sha256(bytes).hexdigest(). -/
def sha256hex (msg : List Nat) : String :=
  let s := (chunks64 (sha256pad msg)).foldl sha256compress sha256init
  String.mk (wordHex s.a ++ wordHex s.b ++ wordHex s.c ++ wordHex s.d ++
             wordHex s.e ++ wordHex s.f ++ wordHex s.g ++ wordHex s.h)

/-- UTF-8 bytes of one character (str.encode()). -/
def utf8Bytes (c : Char) : List Nat :=
  let n := c.toNat
  if n < 128 then [n]
  else if n < 2048 then [192 + n / 64, 128 + n % 64]
  else if n < 65536 then [224 + n / 4096, 128 + (n / 64) % 64, 128 + n % 64]
  else [240 + n / 262144, 128 + (n / 4096) % 64, 128 + (n / 64) % 64, 128 + n % 64]

/-- str.encode() of a whole string. -/
def strUtf8 (s : String) : List Nat := (s.data.map utf8Bytes).flatten

/-- _repo_key (repos.py lines 24-26): first 12 hex characters of the
SHA-256 digest of the URL. -/
def repo_key (repo_url : String) : String :=
  String.mk ((sha256hex (strUtf8 repo_url)).data.take 12)

/-- repo_dir (repos.py lines 34-36): root / key / "repo", a path modelled
as its component list. -/
def repo_dir (root : List String) (repo_url : String) : List String :=
  root ++ [repo_key repo_url, "repo"]

/-- The lowercase hex alphabet. -/
def isLowerHex (c : Char) : Bool := c.isDigit ∨ (Char.ofNat 97 ≤ c ∧ c ≤ Char.ofNat 102)

/-! ### Statement vocabulary and concrete instances -/

/-- Read an attribute by name, when it exists. -/
def Job.projName (j : Job) (k : String) : Option FVal :=
  (knownField? k).map j.projF

/-- An initial runner state over a store (empty history, no effects,
clock at zero). -/
def rstOf (st : Store) : RState := ⟨st, [], [], 0⟩

/-- A freshly created queued repo-less job, as create_job builds one. -/
def jobQ : Job := { id := "j1", task := "t", created_at := "c0" }

/-- A store holding jobQ. -/
def stQ : Store := [("j1", jobQ)]

/-- A benign oracle environment: profile resolved, clean clone, prompt
successful subprocess, no auto-PR. -/
def envBase : RunEnv :=
  { get_profile := fun _ => some ⟨3600, false⟩
    ensure_clone := fun _ => .ok "/repos/k/repo"
    branch_of := fun _ => .ok "main"
    materialize := .ok ()
    spawn := .spawned 7 (.done 0 "" "")
    auto_pr := .ok none
    jparse := fun _ => none
    binary := "claude"
    clock := fun n => String.mk (List.replicate (n + 1) 'c') }

/-- envBase with profile resolution failing. -/
def envNoProfile : RunEnv := { envBase with get_profile := fun _ => none }

/-- envBase with the subprocess exceeding its timeout. -/
def envTimeout : RunEnv := { envBase with spawn := .spawned 7 .timeout }

/-- envBase with the clone step raising. -/
def envCloneFail : RunEnv :=
  { envBase with ensure_clone := fun _ => .error "boom" }

/-- jobQ with a repository URL. -/
def jobR : Job := { jobQ with repo_url := "https://github.com/org/repo.git" }

/-- A store holding jobR. -/
def stR : Store := [("j1", jobR)]

/-- Claim C1 as stated: every record persisted by run_job has startedAt
set exactly when its status has reached running or later (so in
particular a missing-profile failure would have to be stamped). -/
def claimC1Stated : Prop :=
  ∀ env st (j : Job), Store.get st j.id = some j → j.status = "queued" →
    j.started_at = none →
    ∀ x ∈ (run_job env (rstOf st) j).1.hist,
      (x.started_at ≠ none ↔ 1 ≤ statusLevel x.status)

/-- Claim C2 as stated, kill obligation: a run whose subprocess exceeds
the profile timeout sends a kill signal to some process. -/
def claimC2Stated : Prop :=
  ∀ env st (j : Job) prof p, Store.get st j.id = some j → j.repo_url = "" →
    env.get_profile j.profile = some prof → env.spawn = .spawned p .timeout →
    ∃ q sg, Effect.kill q sg ∈ (run_job env (rstOf st) j).1.effs

/-- Claim C8 as stated: some literal sentinel string marks absent
optional fields in the saved Redis hash. -/
def claimC8Stated : Prop :=
  ∃ sentinel : String, ∀ j : Job,
    (j.exit_code = none → hfind (saveRedisHash j) "exit_code" = some sentinel) ∧
    (j.pid = none → hfind (saveRedisHash j) "pid" = some sentinel)

/-- Claim C9 as stated: "main" whenever the git invocation fails or the
detected ref is not slash-qualified, else the portion after the first
slash. -/
def claimC9Stated : Prop :=
  (∀ e, get_default_branch (.error e) = .ok "main") ∧
  (∀ out, ('/' : Char) ∉ (pyStrip out).data →
     get_default_branch (.ok out) = .ok "main") ∧
  (∀ out, ('/' : Char) ∈ (pyStrip out).data →
     get_default_branch (.ok out) = .ok (afterFirstSlash (pyStrip out)))

/-! ## Helper lemmas -/

theorem knownField_name (k : String) (f : JField) (h : knownField? k = some f) :
    k = fieldName f := by
  have := List.find?_some h
  simp at this
  exact this.symm

theorem setF_projF_ne (j : Job) (f1 f2 : JField) (v : FVal) (h : f1 ≠ f2) :
    (j.setF f1 v).projF f2 = j.projF f2 := by
  cases f1 <;> cases f2 <;> first | (exact absurd rfl h) | (cases v <;> rfl)

theorem setField_unknown (j : Job) (k : String) (v : FVal)
    (h : knownField? k = none) : j.setField k v = j := by
  simp [Job.setField, h]

theorem setField_projName_ne (j : Job) (k1 k2 : String) (v : FVal) (h : k1 ≠ k2) :
    (j.setField k1 v).projName k2 = j.projName k2 := by
  unfold Job.setField
  cases hk : knownField? k1 with
  | none => rfl
  | some f1 =>
    unfold Job.projName
    cases hk2 : knownField? k2 with
    | none => rfl
    | some f2 =>
      have h1 := knownField_name _ _ hk
      have h2 := knownField_name _ _ hk2
      have hne : f1 ≠ f2 := by
        rintro rfl
        exact h (h1.trans h2.symm)
      simp [hk2, setF_projF_ne _ _ _ _ hne]

theorem applyKwargs_cons (j : Job) (kv : String × FVal) (rest : List (String × FVal)) :
    applyKwargs j (kv :: rest) = applyKwargs (j.setField kv.1 kv.2) rest := rfl

theorem applyKwargs_projName (kwargs : List (String × FVal)) (j : Job) (k : String)
    (h : k ∉ kwargs.map Prod.fst) :
    (applyKwargs j kwargs).projName k = j.projName k := by
  induction kwargs generalizing j with
  | nil => rfl
  | cons kv rest ih =>
    simp only [List.map_cons, List.mem_cons, not_or] at h
    rw [applyKwargs_cons]
    exact (ih _ h.2).trans (setField_projName_ne _ _ _ _ (fun he => h.1 he.symm))

theorem store_get_save (st : Store) (j : Job) : (st.save j).get j.id = some j := by
  induction st with
  | nil => rw [Store.save, Store.get, if_pos rfl]
  | cons p rest ih =>
    obtain ⟨k1, o⟩ := p
    rw [Store.save]
    by_cases h : k1 = j.id
    · rw [if_pos h, Store.get, if_pos h]
    · rw [if_neg h, Store.get, if_neg h]
      exact ih

theorem from_dict_to_dict (j : Job) : Job.from_dict j.to_dict = j := by
  obtain ⟨i, ru, br, ta, pr, st, mo, ec, si, pu, ou, er, ca, sa, ea, tt, pi⟩ := j
  rcases ec <;> rcases si <;> rcases pu <;> rcases ou <;> rcases er <;>
    rcases sa <;> rcases ea <;> rcases pi <;> rfl

theorem to_dict_no_none (j : Job) : ∀ p ∈ j.to_dict, p.2 ≠ none := by
  intro p hp
  have := List.of_mem_filter hp
  simpa using this

theorem to_dict_keys (j : Job) :
    pyGetRaw j.to_dict "exit_code" = j.exit_code.map (fun n => some (.int n)) ∧
    pyGetRaw j.to_dict "session_id" = j.session_id.map (fun s => some (.str s)) ∧
    pyGetRaw j.to_dict "pr_url" = j.pr_url.map (fun s => some (.str s)) ∧
    pyGetRaw j.to_dict "output" = j.output.map (fun s => some (.str s)) ∧
    pyGetRaw j.to_dict "error" = j.error.map (fun s => some (.str s)) ∧
    pyGetRaw j.to_dict "started_at" = j.started_at.map (fun s => some (.str s)) ∧
    pyGetRaw j.to_dict "pid" = j.pid.map (fun n => some (.int n)) := by
  obtain ⟨i, ru, br, ta, pr, st, mo, ec, si, pu, ou, er, ca, sa, ea, tt, pi⟩ := j
  rcases ec <;> rcases si <;> rcases pu <;> rcases ou <;> rcases er <;>
    rcases sa <;> rcases ea <;> rcases pi <;>
    exact ⟨rfl, rfl, rfl, rfl, rfl, rfl, rfl⟩

/-! ## Claim theorems -/

/-- C5: Job.from_dict inverts Job.to_dict on every Job value, to_dict
keeps no None-valued entry, and each absent optional field has no key in
the serialization (present ones carry their value). -/
theorem job_serialization_roundtrip (j : Job) :
    Job.from_dict j.to_dict = j ∧
    (∀ p ∈ j.to_dict, p.2 ≠ none) ∧
    (pyGetRaw j.to_dict "exit_code" = j.exit_code.map (fun n => some (.int n)) ∧
     pyGetRaw j.to_dict "session_id" = j.session_id.map (fun s => some (.str s)) ∧
     pyGetRaw j.to_dict "pr_url" = j.pr_url.map (fun s => some (.str s)) ∧
     pyGetRaw j.to_dict "output" = j.output.map (fun s => some (.str s)) ∧
     pyGetRaw j.to_dict "error" = j.error.map (fun s => some (.str s)) ∧
     pyGetRaw j.to_dict "started_at" = j.started_at.map (fun s => some (.str s)) ∧
     pyGetRaw j.to_dict "pid" = j.pid.map (fun n => some (.int n))) :=
  ⟨from_dict_to_dict j, to_dict_no_none j, to_dict_keys j⟩

/-- C5 witness: a concrete serialized entry is present and not None. -/
theorem job_serialization_roundtrip_witness :
    ("id", some (JVal.str "j1")) ∈ jobQ.to_dict ∧
      (("id", some (JVal.str "j1")) : String × Option JVal).2 ≠ none :=
  ⟨by decide, (job_serialization_roundtrip jobQ).2.1 _ (by decide)⟩

/-- C7: update_job reads the current record, applies exactly the provided
fields (unknown attribute names are silently ignored, every unmentioned
attribute keeps its value), re-persists the result, and returns None with
the store unchanged when no record exists. -/
theorem update_job_spec (st : Store) (id : String) (kwargs : List (String × FVal)) :
    (Store.get st id = none → update_job st id kwargs = (st, none)) ∧
    (∀ j, Store.get st id = some j →
      update_job st id kwargs =
        (st.save (applyKwargs j kwargs), some (applyKwargs j kwargs)) ∧
      (∀ k, k ∉ kwargs.map Prod.fst →
        (applyKwargs j kwargs).projName k = j.projName k) ∧
      (∀ k v, knownField? k = none → j.setField k v = j)) := by
  constructor
  · intro h
    simp [update_job, h]
  · intro j h
    refine ⟨by simp [update_job, h], ?_, ?_⟩
    · intro k hk
      exact applyKwargs_projName _ _ _ hk
    · intro k v hk
      exact setField_unknown _ _ _ hk

/-- C7 witness: updating a missing id returns None and creates nothing;
updating a present record applies the change. -/
theorem update_job_spec_witness :
    (Store.get stQ "nope" = none ∧
      update_job stQ "nope" [("status", FVal.s "running")] = (stQ, none)) ∧
    (Store.get stQ "j1" = some jobQ ∧
      (applyKwargs jobQ [("status", FVal.s "running")]).projName "task" =
        jobQ.projName "task") :=
  ⟨⟨by decide, (update_job_spec stQ "nope" _).1 (by decide)⟩,
   ⟨by decide,
    ((update_job_spec stQ "j1" [("status", FVal.s "running")]).2 jobQ (by decide)).2.1
      "task" (by decide)⟩⟩

/-- C3: cancel_job returns a terminal record unchanged (store untouched);
a queued or running record transitions to cancelled with ended_at
stamped, and a second cancel is a no-op returning the same record with
the first call's ended_at. -/
theorem cancel_job_spec (st : Store) (id now now2 : String) (j : Job)
    (hget : Store.get st id = some j) (hid : j.id = id) :
    (terminalStatus j.status = true → cancel_job st id now = (st, some j, [])) ∧
    (terminalStatus j.status = false →
      ∃ j2, cancel_job st id now =
          (st.save j2, some j2,
            (match j.pid with | some p => [Effect.kill p 15] | none => [])) ∧
        j2.status = "cancelled" ∧ j2.ended_at = some now ∧
        j2.id = j.id ∧
        cancel_job (st.save j2) id now2 = (st.save j2, some j2, [])) := by
  constructor
  · intro hterm
    have hcond : ¬(j.status = "queued" ∨ j.status = "running") := by
      simp [terminalStatus] at hterm
      tauto
    simp [cancel_job, hget, hcond]
  · intro hnt
    have hcond : j.status = "queued" ∨ j.status = "running" := by
      simp [terminalStatus] at hnt
      tauto
    refine ⟨applyKwargs j [("status", .s "cancelled"), ("ended_at", .s now)],
      ?_, rfl, rfl, rfl, ?_⟩
    · simp [cancel_job, hget, hcond, update_job]
    · have hg2 : Store.get
          (st.save (applyKwargs j [("status", .s "cancelled"), ("ended_at", .s now)])) id =
          some (applyKwargs j [("status", .s "cancelled"), ("ended_at", .s now)]) := by
        have := store_get_save st (applyKwargs j [("status", .s "cancelled"), ("ended_at", .s now)])
        rwa [show (applyKwargs j [("status", .s "cancelled"), ("ended_at", .s now)]).id = id
          from hid] at this
      have hst : (applyKwargs j [("status", .s "cancelled"), ("ended_at", .s now)]).status =
          "cancelled" := rfl
      simp [cancel_job, hg2, hst]

/-- C3 witness: cancelling the concrete queued job. -/
theorem cancel_job_spec_witness :
    Store.get stQ "j1" = some jobQ ∧ jobQ.id = "j1" ∧
    ((terminalStatus jobQ.status = true →
        cancel_job stQ "j1" "t1" = (stQ, some jobQ, [])) ∧
     (terminalStatus jobQ.status = false →
       ∃ j2, cancel_job stQ "j1" "t1" =
           (stQ.save j2, some j2,
             (match jobQ.pid with | some p => [Effect.kill p 15] | none => [])) ∧
         j2.status = "cancelled" ∧ j2.ended_at = some "t1" ∧ j2.id = jobQ.id ∧
         cancel_job (stQ.save j2) "j1" "t2" = (stQ.save j2, some j2, []))) :=
  ⟨rfl, rfl, cancel_job_spec stQ "j1" "t1" "t2" jobQ rfl rfl⟩

/-! ## Decimal round trip (str and int inverses) -/

theorem digitChar_isDigit (d : Nat) (h : d < 10) : (Nat.digitChar d).isDigit = true := by
  interval_cases d <;> decide

theorem digitVal_digitChar (d : Nat) (h : d < 10) : digitVal (Nat.digitChar d) = d := by
  interval_cases d <;> decide

theorem natDigitsRev_all_digit (n : Nat) : (natDigitsRev n).all Char.isDigit = true := by
  induction n using Nat.strong_induction_on with
  | _ n ih =>
    rw [natDigitsRev]
    split
    · rfl
    · rename_i h
      simp only [List.all_cons, Bool.and_eq_true]
      exact ⟨digitChar_isDigit _ (Nat.mod_lt _ (by norm_num)),
        ih _ (Nat.div_lt_self (Nat.pos_of_ne_zero h) (by norm_num))⟩

theorem foldl_digits (n : Nat) : ∀ a : Nat,
    ((natDigitsRev n).reverse).foldl (fun acc c => acc * 10 + digitVal c) a =
      a * 10 ^ (natDigitsRev n).length + n := by
  induction n using Nat.strong_induction_on with
  | _ n ih =>
    intro a
    rw [natDigitsRev]
    split
    · rename_i h
      subst h
      simp
    · rename_i h
      rw [List.reverse_cons, List.foldl_append]
      rw [ih _ (Nat.div_lt_self (Nat.pos_of_ne_zero h) (by norm_num)) a]
      simp only [List.foldl_cons, List.foldl_nil, List.length_cons]
      rw [digitVal_digitChar _ (Nat.mod_lt _ (by norm_num))]
      calc (a * 10 ^ (natDigitsRev (n / 10)).length + n / 10) * 10 + n % 10
          = a * (10 ^ (natDigitsRev (n / 10)).length * 10) + (10 * (n / 10) + n % 10) := by
            ring
        _ = a * 10 ^ ((natDigitsRev (n / 10)).length + 1) + n := by
            rw [Nat.div_add_mod, pow_succ]

theorem natDigitsRev_ne_nil (n : Nat) (h : n ≠ 0) : natDigitsRev n ≠ [] := by
  rw [natDigitsRev]
  simp [h]

theorem parseNat_pyStrNat (n : Nat) : parseNatChars (pyStrNat n).data = some n := by
  by_cases h : n = 0
  · subst h
    decide
  · unfold pyStrNat
    rw [if_neg h]
    show parseNatChars (natDigitsRev n).reverse = some n
    have hne : (natDigitsRev n).reverse ≠ [] := by
      simp [natDigitsRev_ne_nil n h]
    have hall : (natDigitsRev n).reverse.all (fun c => c.isDigit) = true := by
      rw [List.all_reverse]
      exact natDigitsRev_all_digit n
    unfold parseNatChars
    rw [if_pos ⟨hne, hall⟩, foldl_digits n 0]
    simp

theorem pyStrNat_head_digit (n : Nat) :
    ∃ c cs, (pyStrNat n).data = c :: cs ∧ c.isDigit = true := by
  by_cases h : n = 0
  · subst h
    exact ⟨'0', [], rfl, rfl⟩
  · have hne : (natDigitsRev n).reverse ≠ [] := by
      simp [natDigitsRev_ne_nil n h]
    obtain ⟨c, cs, hcs⟩ := List.exists_cons_of_ne_nil hne
    refine ⟨c, cs, ?_, ?_⟩
    · unfold pyStrNat
      rw [if_neg h]
      exact hcs
    · have hmem : c ∈ natDigitsRev n := by
        have : c ∈ (natDigitsRev n).reverse := by
          rw [hcs]
          exact List.mem_cons_self _ _
        simpa using this
      have := natDigitsRev_all_digit n
      rw [List.all_eq_true] at this
      exact this c hmem

theorem pyParseInt_mk (c : Char) (cs : List Char) :
    pyParseInt ⟨c :: cs⟩ =
      if c = '-' then (parseNatChars cs).map (fun v => -(v : Int))
      else (parseNatChars (c :: cs)).map (fun v => (v : Int)) := rfl

theorem pyParseInt_pyStrInt (n : Int) : pyParseInt (pyStrInt n) = some n := by
  by_cases h : n < 0
  · unfold pyStrInt
    rw [if_pos h]
    have hs : ("-" ++ pyStrNat (-n).toNat : String) =
        ⟨'-' :: (pyStrNat (-n).toNat).data⟩ := rfl
    rw [hs, pyParseInt_mk, if_pos rfl, parseNat_pyStrNat]
    have hnn : ((-n).toNat : Int) = -n := Int.toNat_of_nonneg (by omega)
    simp [hnn]
  · unfold pyStrInt
    rw [if_neg h]
    obtain ⟨c, cs, hdata, hdig⟩ := pyStrNat_head_digit n.toNat
    have hc : ¬(c = '-') := by
      intro he
      subst he
      exact absurd hdig (by decide)
    have hs : pyStrNat n.toNat = (⟨c :: cs⟩ : String) := by
      rw [← hdata]
    rw [hs, pyParseInt_mk, if_neg hc, ← hdata, parseNat_pyStrNat]
    simp [Int.toNat_of_nonneg (not_lt.mp h)]

theorem pyStrInt_ne_None (n : Int) : pyStrInt n ≠ "None" := by
  intro he
  have hd := congrArg String.data he
  by_cases h : n < 0
  · unfold pyStrInt at hd
    rw [if_pos h] at hd
    have hd2 : '-' :: (pyStrNat (-n).toNat).data = ['N', 'o', 'n', 'e'] := hd
    have : '-' = 'N' := by injection hd2
    exact absurd this (by decide)
  · unfold pyStrInt at hd
    rw [if_neg h] at hd
    obtain ⟨c, cs, hdata, hdig⟩ := pyStrNat_head_digit n.toNat
    rw [hdata] at hd
    have hd2 : c :: cs = ['N', 'o', 'n', 'e'] := hd
    have hcN : c = 'N' := by injection hd2
    subst hcN
    exact absurd hdig (by decide)

theorem decode_int_entry (k : String) (hk : k = "exit_code" ∨ k = "pid") (n : Int) :
    decodeRedisEntry k (pyStrInt n) = some (.int n) := by
  unfold decodeRedisEntry
  rw [if_pos hk, if_pos (pyStrInt_ne_None n)]
  simp [pyInt, pyParseInt_pyStrInt]

theorem decode_ttl_entry (n : Int) :
    decodeRedisEntry "ttl_seconds" (pyStrInt n) = some (.int n) := by
  unfold decodeRedisEntry
  rw [if_neg (by decide), if_pos rfl]
  simp [pyInt, pyParseInt_pyStrInt]

theorem decode_str_entry (k v : String) (h1 : ¬(k = "exit_code" ∨ k = "pid"))
    (h2 : ¬(k = "ttl_seconds")) : decodeRedisEntry k v = some (.str v) := by
  unfold decodeRedisEntry
  rw [if_neg h1, if_neg h2]

theorem hfind_map (d : PyDict) (f : Option JVal → String) (k : String) :
    hfind (d.map (fun p => (p.1, f p.2))) k = (pyGetRaw d k).map f := by
  induction d with
  | nil => rfl
  | cons p rest ih =>
    obtain ⟨k1, v⟩ := p
    by_cases h : k1 = k <;> simp [hfind, pyGetRaw, h, ih]

set_option linter.unreachableTactic false in
set_option linter.unusedTactic false in
theorem decodeRedis_save (j : Job) :
    (saveRedisHash j).map (fun p => (p.1, decodeRedisEntry p.1 p.2)) = j.to_dict := by
  unfold saveRedisHash
  rw [List.map_map]
  have hid : ∀ p ∈ j.to_dict,
      ((fun p => (p.1, decodeRedisEntry p.1 p.2)) ∘
        (fun (p : String × Option JVal) => (p.1, encVal p.2))) p = p := by
    intro p hp
    have hnn : p.2 ≠ none := to_dict_no_none j p hp
    have hmem : p ∈ j.asdict := List.mem_of_mem_filter hp
    simp only [Job.asdict, List.mem_cons, List.not_mem_nil, or_false] at hmem
    rcases hmem with h | h | h | h | h | h | h | h | h | h | h | h | h | h | h | h | h <;>
      subst h <;>
      first
        | (simp [encVal, pyStrOfJVal, decode_str_entry]; done)
        | (simp [encVal, pyStrOfJVal, decode_ttl_entry]; done)
        | (rcases hx : j.exit_code with _ | n <;>
            simp_all [encVal, pyStrOfJVal, decode_int_entry] <;> done)
        | (rcases hx : j.pid with _ | n <;>
            simp_all [encVal, pyStrOfJVal, decode_int_entry] <;> done)
        | (rcases hx : j.session_id with _ | s1 <;>
            simp_all [encVal, pyStrOfJVal, decode_str_entry] <;> done)
        | (rcases hx : j.pr_url with _ | s1 <;>
            simp_all [encVal, pyStrOfJVal, decode_str_entry] <;> done)
        | (rcases hx : j.output with _ | s1 <;>
            simp_all [encVal, pyStrOfJVal, decode_str_entry] <;> done)
        | (rcases hx : j.error with _ | s1 <;>
            simp_all [encVal, pyStrOfJVal, decode_str_entry] <;> done)
        | (rcases hx : j.started_at with _ | s1 <;>
            simp_all [encVal, pyStrOfJVal, decode_str_entry] <;> done)
        | (rcases hx : j.ended_at with _ | s1 <;>
            simp_all [encVal, pyStrOfJVal, decode_str_entry] <;> done)
  calc j.to_dict.map
        ((fun p => (p.1, decodeRedisEntry p.1 p.2)) ∘
          (fun (p : String × Option JVal) => (p.1, encVal p.2)))
      = j.to_dict.map id := List.map_congr_left hid
    _ = j.to_dict := List.map_id _

/-- C8 (amended): the fast-backend hash stores every present field as its
str() and omits an absent optional field entirely (its key is missing,
not a sentinel); get_job's read converts exit_code, ttl_seconds and pid
back to integers and reproduces the job exactly, absent fields staying
absent. -/
theorem redis_hash_roundtrip (j : Job) :
    jobOfRedisHash (saveRedisHash j) = j ∧
    hfind (saveRedisHash j) "exit_code" = j.exit_code.map pyStrInt ∧
    hfind (saveRedisHash j) "pid" = j.pid.map pyStrInt ∧
    hfind (saveRedisHash j) "session_id" = j.session_id ∧
    hfind (saveRedisHash j) "ttl_seconds" = some (pyStrInt j.ttl_seconds) := by
  have hkeys := to_dict_keys j
  refine ⟨?_, ?_, ?_, ?_, ?_⟩
  · unfold jobOfRedisHash
    rw [decodeRedis_save, from_dict_to_dict]
  · rw [show saveRedisHash j = j.to_dict.map (fun p => (p.1, encVal p.2)) from rfl,
      hfind_map, hkeys.1]
    rcases j.exit_code <;> simp [encVal, pyStrOfJVal]
  · rw [show saveRedisHash j = j.to_dict.map (fun p => (p.1, encVal p.2)) from rfl,
      hfind_map, hkeys.2.2.2.2.2.2]
    rcases j.pid <;> simp [encVal, pyStrOfJVal]
  · rw [show saveRedisHash j = j.to_dict.map (fun p => (p.1, encVal p.2)) from rfl,
      hfind_map, hkeys.2.1]
    rcases j.session_id <;> simp [encVal, pyStrOfJVal]
  · rw [show saveRedisHash j = j.to_dict.map (fun p => (p.1, encVal p.2)) from rfl,
      hfind_map]
    have htt : pyGetRaw j.to_dict "ttl_seconds" = some (some (.int j.ttl_seconds)) := by
      obtain ⟨i, ru, br, ta, pr, st, mo, ec, si, pu, ou, er, ca, sa, ea, tt, pi⟩ := j
      rcases ec <;> rcases si <;> rcases pu <;> rcases ou <;> rcases er <;>
        rcases sa <;> rcases ea <;> rcases pi <;> rfl
    rw [htt]
    simp [encVal, pyStrOfJVal]

/-- C8 counterexample: no sentinel string is stored for an absent
optional field; the saved hash simply has no such key. -/
theorem redis_sentinel_cex : ¬claimC8Stated := by
  rintro ⟨sent, hall⟩
  have h1 := (hall jobQ).1 rfl
  rw [show hfind (saveRedisHash jobQ) "exit_code" = none from rfl] at h1
  exact Option.noConfusion h1

/-! ## Default-branch detection (C9) -/

theorem string_mk_eq_empty_iff (l : List Char) : (String.mk l = "") ↔ l = [] := by
  constructor
  · intro h
    exact congrArg String.data h
  · rintro rfl
    rfl

theorem string_eq_empty_iff (s : String) : s = "" ↔ s.data = [] := by
  obtain ⟨l⟩ := s
  simpa using string_mk_eq_empty_iff l

theorem dropWhile_until_slash (a b : List Char) (h : ('/' : Char) ∉ a) :
    (a ++ '/' :: b).dropWhile (fun c => c != '/') = '/' :: b := by
  induction a with
  | nil => simp [List.dropWhile]
  | cons x a2 ih =>
    simp only [List.mem_cons, not_or] at h
    have hx : (x != '/') = true := by
      simpa using fun he => h.1 he.symm
    rw [List.cons_append, List.dropWhile_cons, if_pos hx]
    exact ih h.2

/-- C9 counterexample: the claim as stated fails; a detected ref without
a slash is returned as-is rather than replaced by "main" (here the git
invocation succeeds with output "master"). -/
theorem default_branch_cex : ¬claimC9Stated := by
  rintro ⟨-, hB, -⟩
  have hm := hB "master" (by decide)
  rw [show get_default_branch (Except.ok "master") = Except.ok "master" from rfl] at hm
  exact absurd (Except.ok.inj hm) (by decide)

/-- C9 (amended): get_default_branch propagates a failed git invocation
as an error (it does not return "main"); on success it strips the
output, and returns the part after the first slash when one is present
("main" when that part is empty), the stripped output itself when
non-empty and slash-free, and "main" only for empty output. -/
theorem get_default_branch_spec :
    (∀ e, get_default_branch (.error e) = .error e) ∧
    (∀ out a b, (pyStrip out).data = a ++ '/' :: b → ('/' : Char) ∉ a →
       get_default_branch (.ok out) =
         .ok (if b = [] then "main" else String.mk b)) ∧
    (∀ out, ('/' : Char) ∉ (pyStrip out).data → (pyStrip out).data ≠ [] →
       get_default_branch (.ok out) = .ok (pyStrip out)) ∧
    (∀ out, (pyStrip out).data = [] → get_default_branch (.ok out) = .ok "main") := by
  refine ⟨fun e => rfl, ?_, ?_, ?_⟩
  · intro out a b hdata hnsl
    have hmem : ('/' : Char) ∈ (pyStrip out).data := by
      rw [hdata]
      simp
    have hafs : afterFirstSlash (pyStrip out) = String.mk b := by
      unfold afterFirstSlash
      rw [hdata, dropWhile_until_slash a b hnsl]
      rfl
    by_cases hb : b = []
    · subst hb
      simp [get_default_branch, hmem, hafs, string_mk_eq_empty_iff]
    · simp [get_default_branch, hmem, hafs, string_mk_eq_empty_iff, hb]
  · intro out hnsl hne
    have hne2 : ¬(pyStrip out = "") := by
      rw [string_eq_empty_iff]
      exact hne
    simp [get_default_branch, hnsl, hne2]
  · intro out hempty
    have he2 : pyStrip out = "" := (string_eq_empty_iff _).mpr hempty
    simp [get_default_branch, hempty, he2]

/-- C9 witness: a slash-qualified ref yields the part after the slash;
a failing invocation propagates the error. -/
theorem get_default_branch_spec_witness :
    ((pyStrip "origin/main\n").data =
        ['o', 'r', 'i', 'g', 'i', 'n'] ++ '/' :: ['m', 'a', 'i', 'n'] ∧
      ('/' : Char) ∉ ['o', 'r', 'i', 'g', 'i', 'n'] ∧
      get_default_branch (.ok "origin/main\n") =
        .ok (if (['m', 'a', 'i', 'n'] : List Char) = [] then "main"
             else String.mk ['m', 'a', 'i', 'n'])) ∧
    get_default_branch (.error "git failed: boom") = .error "git failed: boom" :=
  ⟨⟨by decide, by decide,
    get_default_branch_spec.2.1 "origin/main\n" ['o', 'r', 'i', 'g', 'i', 'n']
      ['m', 'a', 'i', 'n'] (by decide) (by decide)⟩,
   get_default_branch_spec.1 "git failed: boom"⟩

/-! ## Repository key (C10) -/

theorem wordHex_length (x : Nat) : (wordHex x).length = 8 := rfl

theorem sha256hex_data_length (msg : List Nat) : (sha256hex msg).data.length = 64 := by
  unfold sha256hex
  simp [wordHex]

theorem digitChar_hex (n : Nat) : isLowerHex (Nat.digitChar (n % 16)) = true := by
  have h : n % 16 < 16 := Nat.mod_lt _ (by norm_num)
  generalize hm : n % 16 = m at h ⊢
  interval_cases m <;> decide

theorem sha256hex_all_hex (msg : List Nat) :
    (sha256hex msg).data.all isLowerHex = true := by
  unfold sha256hex
  simp [wordHex, List.all_append, digitChar_hex]

/-- C10: the repository key is the first 12 hex characters of the
SHA-256 digest of the URL: always 12 characters, all lowercase hex, the
same on every evaluation, distinct across the test corpus URLs, and
repo_dir is root / key / "repo" with no side effects. -/
theorem repo_key_spec :
    (∀ u, (repo_key u).length = 12) ∧
    (∀ u, (repo_key u).data.all isLowerHex = true) ∧
    (∀ u, repo_key u = repo_key u) ∧
    (∀ u root, repo_dir root u = root ++ [repo_key u, "repo"]) ∧
    List.Pairwise (fun a b => repo_key a ≠ repo_key b)
      ["https://github.com/org/repo.git", "https://github.com/org/repo1.git",
       "https://github.com/org/repo2.git", "https://example.com/repo"] := by
  refine ⟨?_, ?_, fun u => rfl, fun u root => rfl, ?_⟩
  · intro u
    show ((sha256hex (strUtf8 u)).data.take 12).length = 12
    rw [List.length_take, sha256hex_data_length]
    decide
  · intro u
    have hall := sha256hex_all_hex (strUtf8 u)
    rw [List.all_eq_true] at hall ⊢
    intro c hc
    exact hall c (List.mem_of_mem_take hc)
  · decide

/-! ## Runner path descriptions

Each lemma fixes one shape of the oracle environment and computes the
persisted history, the OS effects and the returned record of run_job.
The record abbreviations: jr is the running record, and the others are
the updates the source applies on each path. -/

theorem store_get_save_at (st : Store) (jj : Job) (id : String) (h : jj.id = id) :
    (st.save jj).get id = some jj := h ▸ store_get_save st jj

theorem run_job_no_profile_desc (env : RunEnv) (st : Store) (j : Job)
    (hj : Store.get st j.id = some j)
    (hp : env.get_profile j.profile = none) :
    run_job env (rstOf st) j =
      (⟨st.save (applyKwargs j
          [("status", FVal.s "failed"),
           ("error", FVal.s ("Profile not found: " ++ j.profile)),
           ("ended_at", FVal.s (env.clock 0))]),
        [applyKwargs j
          [("status", FVal.s "failed"),
           ("error", FVal.s ("Profile not found: " ++ j.profile)),
           ("ended_at", FVal.s (env.clock 0))]],
        [], 1⟩,
       some (applyKwargs j
          [("status", FVal.s "failed"),
           ("error", FVal.s ("Profile not found: " ++ j.profile)),
           ("ended_at", FVal.s (env.clock 0))])) := by
  simp only [run_job, hp, rstOf, RState.now, RState.upd, update_job, hj]
  rfl

theorem run_job_prep_error_desc (env : RunEnv) (st : Store) (j : Job)
    (prof : ClaudeProfile) (e : String)
    (hj : Store.get st j.id = some j)
    (hp : env.get_profile j.profile = some prof)
    (hprep : prepStage env j = .error e) :
    run_job env (rstOf st) j =
      ((let jr := applyKwargs j
          [("status", FVal.s "running"), ("started_at", FVal.s (env.clock 0))]
        let jf := applyKwargs jr
          [("status", FVal.s "failed"),
           ("error", FVal.s ("Clone failed: " ++ e)),
           ("ended_at", FVal.s (env.clock 1))]
        (⟨(st.save jr).save jf, [jr, jf], [], 2⟩, some jf)) :
          RState × Option Job) := by
  have h2 : Store.get (st.save (applyKwargs j
      [("status", FVal.s "running"), ("started_at", FVal.s (env.clock 0))])) j.id =
      some (applyKwargs j
        [("status", FVal.s "running"), ("started_at", FVal.s (env.clock 0))]) :=
    store_get_save_at _ _ _ rfl
  simp only [run_job, hp, hprep, rstOf, RState.now, RState.upd, update_job, hj, h2]
  rfl

theorem run_job_mat_error_desc (env : RunEnv) (st : Store) (j : Job)
    (prof : ClaudeProfile) (w br e : String)
    (hj : Store.get st j.id = some j)
    (hp : env.get_profile j.profile = some prof)
    (hprep : prepStage env j = .ok (some w, br))
    (hmat : env.materialize = .error e) :
    run_job env (rstOf st) j =
      ((let jr := applyKwargs j
          [("status", FVal.s "running"), ("started_at", FVal.s (env.clock 0))]
        let jf := applyKwargs jr
          [("status", FVal.s "failed"),
           ("error", FVal.s ("Profile materialization failed: " ++ e)),
           ("ended_at", FVal.s (env.clock 1))]
        (⟨(st.save jr).save jf, [jr, jf], [], 2⟩, some jf)) :
          RState × Option Job) := by
  have h2 : Store.get (st.save (applyKwargs j
      [("status", FVal.s "running"), ("started_at", FVal.s (env.clock 0))])) j.id =
      some (applyKwargs j
        [("status", FVal.s "running"), ("started_at", FVal.s (env.clock 0))]) :=
    store_get_save_at _ _ _ rfl
  simp only [run_job, hp, hprep, hmat, rstOf, RState.now, RState.upd, update_job, hj, h2]
  rfl

theorem run_job_exec_desc (env : RunEnv) (st : Store) (j : Job)
    (prof : ClaudeProfile) (cwd : Option String) (br : String)
    (hj : Store.get st j.id = some j)
    (hp : env.get_profile j.profile = some prof)
    (hprep : prepStage env j = .ok (cwd, br))
    (hmat : (match cwd with | some _ => env.materialize | none => Except.ok ()) =
      .ok ()) :
    run_job env (rstOf st) j =
      execute_claude env
        ⟨st.save (applyKwargs j
            [("status", FVal.s "running"), ("started_at", FVal.s (env.clock 0))]),
          [applyKwargs j
            [("status", FVal.s "running"), ("started_at", FVal.s (env.clock 0))]],
          [], 1⟩
        j prof := by
  simp only [run_job, hp, hprep, rstOf, RState.now, RState.upd, update_job, hj]
  rw [hmat]
  rfl

theorem exec_fnf_desc (env : RunEnv) (s : RState) (j : Job) (prof : ClaudeProfile)
    (jc : Job)
    (hsp : env.spawn = .fileNotFound)
    (hget : s.store.get j.id = some jc) :
    execute_claude env s j prof =
      ((let jf := applyKwargs jc
          [("status", FVal.s "failed"),
           ("error", FVal.s ("Claude binary not found: " ++ env.binary)),
           ("ended_at", FVal.s (env.clock s.tick))]
        (⟨s.store.save jf, s.hist ++ [jf], s.effs, s.tick + 1⟩, some jf)) :
          RState × Option Job) := by
  simp only [execute_claude, hsp, RState.now, RState.upd, update_job, hget]

theorem exec_timeout_desc (env : RunEnv) (s : RState) (j : Job) (prof : ClaudeProfile)
    (pid : Int) (jc : Job)
    (hsp : env.spawn = .spawned pid .timeout)
    (hget : s.store.get j.id = some jc) (hid : jc.id = j.id) :
    execute_claude env s j prof =
      ((let jc1 := applyKwargs jc [("pid", FVal.i pid)]
        let jf := applyKwargs jc1
          [("status", FVal.s "failed"),
           ("error", FVal.s ("Timeout after " ++ pyStrNat prof.timeout ++ "s")),
           ("exit_code", FVal.i (-1)),
           ("ended_at", FVal.s (env.clock s.tick))]
        (⟨(s.store.save jc1).save jf, s.hist ++ [jc1, jf], s.effs ++ [Effect.spawn],
          s.tick + 1⟩, some jf)) : RState × Option Job) := by
  have h2 : Store.get (s.store.save (applyKwargs jc [("pid", FVal.i pid)])) j.id =
      some (applyKwargs jc [("pid", FVal.i pid)]) :=
    store_get_save_at _ _ _ hid
  simp only [execute_claude, hsp, RState.addEff, RState.now, RState.upd, update_job,
    hget, h2]
  simp [List.append_assoc]

theorem exec_exc_desc (env : RunEnv) (s : RState) (j : Job) (prof : ClaudeProfile)
    (pid : Int) (msg : String) (jc : Job)
    (hsp : env.spawn = .spawned pid (.exc msg))
    (hget : s.store.get j.id = some jc) (hid : jc.id = j.id) :
    execute_claude env s j prof =
      ((let jc1 := applyKwargs jc [("pid", FVal.i pid)]
        let jf := applyKwargs jc1
          [("status", FVal.s "failed"), ("error", FVal.s msg),
           ("ended_at", FVal.s (env.clock s.tick))]
        (⟨(s.store.save jc1).save jf, s.hist ++ [jc1, jf], s.effs ++ [Effect.spawn],
          s.tick + 1⟩, some jf)) : RState × Option Job) := by
  have h2 : Store.get (s.store.save (applyKwargs jc [("pid", FVal.i pid)])) j.id =
      some (applyKwargs jc [("pid", FVal.i pid)]) :=
    store_get_save_at _ _ _ hid
  simp only [execute_claude, hsp, RState.addEff, RState.now, RState.upd, update_job,
    hget, h2]
  simp [List.append_assoc]

theorem sessionKwargs_fields (j2 : Job) (v : PyVal) :
    (applyKwargs j2 (sessionKwargs (some v))).id = j2.id ∧
    (applyKwargs j2 (sessionKwargs (some v))).status = j2.status ∧
    (applyKwargs j2 (sessionKwargs (some v))).started_at = j2.started_at ∧
    (applyKwargs j2 (sessionKwargs (some v))).repo_url = j2.repo_url := by
  cases v <;> exact ⟨rfl, rfl, rfl, rfl⟩

theorem final_kwargs_fields (j2 : Job) (stv : String) (rc : Int) (o : String)
    (ev : FVal) (t : String) :
    (applyKwargs j2
        [("status", FVal.s stv), ("exit_code", FVal.i rc), ("output", FVal.s o),
         ("error", ev), ("ended_at", FVal.s t)]).id = j2.id ∧
    (applyKwargs j2
        [("status", FVal.s stv), ("exit_code", FVal.i rc), ("output", FVal.s o),
         ("error", ev), ("ended_at", FVal.s t)]).status = stv ∧
    (applyKwargs j2
        [("status", FVal.s stv), ("exit_code", FVal.i rc), ("output", FVal.s o),
         ("error", ev), ("ended_at", FVal.s t)]).started_at = j2.started_at ∧
    (applyKwargs j2
        [("status", FVal.s stv), ("exit_code", FVal.i rc), ("output", FVal.s o),
         ("error", ev), ("ended_at", FVal.s t)]).ended_at = some t ∧
    (applyKwargs j2
        [("status", FVal.s stv), ("exit_code", FVal.i rc), ("output", FVal.s o),
         ("error", ev), ("ended_at", FVal.s t)]).exit_code = some rc ∧
    (applyKwargs j2
        [("status", FVal.s stv), ("exit_code", FVal.i rc), ("output", FVal.s o),
         ("error", ev), ("ended_at", FVal.s t)]).session_id = j2.session_id ∧
    (applyKwargs j2
        [("status", FVal.s stv), ("exit_code", FVal.i rc), ("output", FVal.s o),
         ("error", ev), ("ended_at", FVal.s t)]).output = some o := by
  cases ev <;> exact ⟨rfl, rfl, rfl, rfl, rfl, rfl, rfl⟩

theorem exec_done_desc (env : RunEnv) (s : RState) (j : Job) (prof : ClaudeProfile)
    (pid rc : Int) (out err : String) (jc jc2 jc3 : Job) (mid prH : List Job)
    (hsp : env.spawn = .spawned pid (.done rc out err))
    (hget : s.store.get j.id = some jc) (hid : jc.id = j.id)
    (hjc2 : jc2 = (match extract_session_id env.jparse out with
      | some v =>
        applyKwargs (applyKwargs jc [("pid", FVal.i pid)]) (sessionKwargs (some v))
      | none => applyKwargs jc [("pid", FVal.i pid)]))
    (hmid : mid = (match extract_session_id env.jparse out with
      | some _ => [jc2]
      | none => []))
    (hjc3 : jc3 = applyKwargs jc2
      [("status", FVal.s (if rc = 0 then "succeeded" else "failed")),
       ("exit_code", FVal.i rc),
       ("output", FVal.s (pyTruncate out 50000)),
       ("error", if err ≠ "" then FVal.s (pyTruncate err 10000) else FVal.null),
       ("ended_at", FVal.s (env.clock s.tick))])
    (hprH : prH = (if (if rc = 0 then "succeeded" else "failed") = "succeeded" ∧
          prof.auto_pr = true ∧ ¬(j.repo_url = "") then
        (match env.auto_pr with
         | .ok (some url) =>
           if ¬(url = "") then [applyKwargs jc3 [("pr_url", FVal.s url)]] else []
         | .ok none => []
         | .error _ => []) else [])) :
    (execute_claude env s j prof).1.hist =
      s.hist ++ [applyKwargs jc [("pid", FVal.i pid)]] ++ mid ++ [jc3] ++ prH ∧
    (execute_claude env s j prof).1.effs = s.effs ++ [Effect.spawn] ∧
    (execute_claude env s j prof).2 = some (prH.getLastD jc3) := by
  have h1 : Store.get (s.store.save (applyKwargs jc [("pid", FVal.i pid)])) j.id =
      some (applyKwargs jc [("pid", FVal.i pid)]) :=
    store_get_save_at _ _ _ hid
  have hid3 : jc3.id = j.id := by
    rw [hjc3, (final_kwargs_fields jc2 _ rc _ _ _).1, hjc2]
    cases hsid0 : extract_session_id env.jparse out with
    | none => exact hid
    | some v => rw [(sessionKwargs_fields _ v).1]; exact hid
  cases hsid : extract_session_id env.jparse out with
  | none =>
    subst hjc2
    rw [hsid] at hjc3 hmid
    dsimp only at hjc3 hmid
    subst hmid
    subst hjc3
    have h3 : Store.get ((s.store.save (applyKwargs jc [("pid", FVal.i pid)])).save
        (applyKwargs (applyKwargs jc [("pid", FVal.i pid)])
          [("status", FVal.s (if rc = 0 then "succeeded" else "failed")),
           ("exit_code", FVal.i rc),
           ("output", FVal.s (pyTruncate out 50000)),
           ("error", if err ≠ "" then FVal.s (pyTruncate err 10000) else FVal.null),
           ("ended_at", FVal.s (env.clock s.tick))])) j.id =
        some (applyKwargs (applyKwargs jc [("pid", FVal.i pid)])
          [("status", FVal.s (if rc = 0 then "succeeded" else "failed")),
           ("exit_code", FVal.i rc),
           ("output", FVal.s (pyTruncate out 50000)),
           ("error", if err ≠ "" then FVal.s (pyTruncate err 10000) else FVal.null),
           ("ended_at", FVal.s (env.clock s.tick))]) :=
      store_get_save_at _ _ _ hid3
    subst hprH
    by_cases hg : ((if rc = 0 then "succeeded" else "failed") = "succeeded" ∧
        prof.auto_pr = true ∧ ¬(j.repo_url = ""))
    · cases hpr : env.auto_pr with
      | ok o =>
        cases o with
        | some url =>
          by_cases hurl : url = ""
          · simp only [execute_claude, hsp, RState.addEff, RState.now, RState.upd,
              update_job, hget, h1, hsid, hpr, if_pos hg, hurl]
            simp [List.append_assoc]
          · simp only [execute_claude, hsp, RState.addEff, RState.now, RState.upd,
              update_job, hget, h1, h3, hsid, hpr, if_pos hg, if_neg hurl]
            simp [List.append_assoc, hurl]
        | none =>
          simp only [execute_claude, hsp, RState.addEff, RState.now, RState.upd,
            update_job, hget, h1, hsid, hpr, if_pos hg]
          simp [List.append_assoc]
      | error e =>
        simp only [execute_claude, hsp, RState.addEff, RState.now, RState.upd,
          update_job, hget, h1, hsid, hpr, if_pos hg]
        simp [List.append_assoc]
    · simp only [execute_claude, hsp, RState.addEff, RState.now, RState.upd,
        update_job, hget, h1, hsid, if_neg hg]
      simp [List.append_assoc, hg]
  | some v =>
    subst hjc2
    rw [hsid] at hjc3 hmid
    dsimp only at hjc3 hmid
    subst hmid
    subst hjc3
    have h2 : Store.get ((s.store.save (applyKwargs jc [("pid", FVal.i pid)])).save
        (applyKwargs (applyKwargs jc [("pid", FVal.i pid)]) (sessionKwargs (some v)))) j.id =
        some (applyKwargs (applyKwargs jc [("pid", FVal.i pid)]) (sessionKwargs (some v))) :=
      store_get_save_at _ _ _ (by rw [(sessionKwargs_fields _ v).1]; exact hid)
    have h3 : Store.get (((s.store.save (applyKwargs jc [("pid", FVal.i pid)])).save
        (applyKwargs (applyKwargs jc [("pid", FVal.i pid)]) (sessionKwargs (some v)))).save
        (applyKwargs (applyKwargs (applyKwargs jc [("pid", FVal.i pid)]) (sessionKwargs (some v)))
          [("status", FVal.s (if rc = 0 then "succeeded" else "failed")),
           ("exit_code", FVal.i rc),
           ("output", FVal.s (pyTruncate out 50000)),
           ("error", if err ≠ "" then FVal.s (pyTruncate err 10000) else FVal.null),
           ("ended_at", FVal.s (env.clock s.tick))])) j.id =
        some (applyKwargs (applyKwargs (applyKwargs jc [("pid", FVal.i pid)]) (sessionKwargs (some v)))
          [("status", FVal.s (if rc = 0 then "succeeded" else "failed")),
           ("exit_code", FVal.i rc),
           ("output", FVal.s (pyTruncate out 50000)),
           ("error", if err ≠ "" then FVal.s (pyTruncate err 10000) else FVal.null),
           ("ended_at", FVal.s (env.clock s.tick))]) :=
      store_get_save_at _ _ _ hid3
    subst hprH
    by_cases hg : ((if rc = 0 then "succeeded" else "failed") = "succeeded" ∧
        prof.auto_pr = true ∧ ¬(j.repo_url = ""))
    · cases hpr : env.auto_pr with
      | ok o =>
        cases o with
        | some url =>
          by_cases hurl : url = ""
          · simp only [execute_claude, hsp, RState.addEff, RState.now, RState.upd,
              update_job, hget, h1, h2, hsid, hpr, if_pos hg, hurl]
            simp [List.append_assoc]
          · simp only [execute_claude, hsp, RState.addEff, RState.now, RState.upd,
              update_job, hget, h1, h2, h3, hsid, hpr, if_pos hg, if_neg hurl]
            simp [List.append_assoc, hurl]
        | none =>
          simp only [execute_claude, hsp, RState.addEff, RState.now, RState.upd,
            update_job, hget, h1, h2, hsid, hpr, if_pos hg]
          simp [List.append_assoc]
      | error e =>
        simp only [execute_claude, hsp, RState.addEff, RState.now, RState.upd,
          update_job, hget, h1, h2, hsid, hpr, if_pos hg]
        simp [List.append_assoc]
    · simp only [execute_claude, hsp, RState.addEff, RState.now, RState.upd,
        update_job, hget, h1, h2, hsid, if_neg hg]
      simp [List.append_assoc, hg]

/-! ## State-machine step helpers -/

theorem stepOk_from_queued (a b : Job) (ha : a.status = "queued") : stepOk a b := by
  unfold stepOk
  rw [ha]
  exact ⟨Nat.zero_le _, fun ht => absurd ht (by decide)⟩

theorem stepOk_running_le (a b : Job) (ha : a.status = "running")
    (hb : 1 ≤ statusLevel b.status) : stepOk a b := by
  unfold stepOk
  rw [ha]
  exact ⟨hb, fun ht => absurd ht (by decide)⟩

theorem stepOk_of_eq (a b : Job) (h : b.status = a.status) : stepOk a b :=
  ⟨le_of_eq (by rw [h]), fun _ => h⟩

theorem statusLevel_final (rc : Int) :
    1 ≤ statusLevel (if rc = 0 then "succeeded" else "failed") ∧
      terminalStatus (if rc = 0 then "succeeded" else "failed") = true := by
  split <;> exact ⟨by decide, by decide⟩

theorem prH_cases (jc3 : Job) (cond : Prop) [Decidable cond]
    (ap : Except String (Option String)) :
    (if cond then (match ap with
        | .ok (some url) =>
          if ¬(url = "") then [applyKwargs jc3 [("pr_url", FVal.s url)]] else []
        | .ok none => []
        | .error _ => []) else []) = [] ∨
    (∃ url, (if cond then (match ap with
        | .ok (some url) =>
          if ¬(url = "") then [applyKwargs jc3 [("pr_url", FVal.s url)]] else []
        | .ok none => []
        | .error _ => []) else []) = [applyKwargs jc3 [("pr_url", FVal.s url)]]) := by
  by_cases hc : cond
  · rw [if_pos hc]
    cases ap with
    | error e => exact Or.inl rfl
    | ok o =>
      cases o with
      | none => exact Or.inl rfl
      | some url =>
        dsimp only
        by_cases hu : url = ""
        · rw [if_neg (by simpa using hu)]
          exact Or.inl rfl
        · rw [if_pos (show ¬(url = "") from hu)]
          exact Or.inr ⟨url, rfl⟩
  · rw [if_neg hc]
    exact Or.inl rfl

theorem run2_fields (j : Job) (t : String) :
    (applyKwargs j [("status", FVal.s "running"), ("started_at", FVal.s t)]).status =
        "running" ∧
    (applyKwargs j [("status", FVal.s "running"), ("started_at", FVal.s t)]).started_at =
        some t ∧
    (applyKwargs j [("status", FVal.s "running"), ("started_at", FVal.s t)]).id = j.id ∧
    (applyKwargs j [("status", FVal.s "running"), ("started_at", FVal.s t)]).output =
        j.output ∧
    (applyKwargs j [("status", FVal.s "running"), ("started_at", FVal.s t)]).session_id =
        j.session_id ∧
    (applyKwargs j [("status", FVal.s "running"), ("started_at", FVal.s t)]).repo_url =
        j.repo_url :=
  ⟨rfl, rfl, rfl, rfl, rfl, rfl⟩

theorem pid1_fields (jc : Job) (pid : Int) :
    (applyKwargs jc [("pid", FVal.i pid)]).status = jc.status ∧
    (applyKwargs jc [("pid", FVal.i pid)]).started_at = jc.started_at ∧
    (applyKwargs jc [("pid", FVal.i pid)]).id = jc.id ∧
    (applyKwargs jc [("pid", FVal.i pid)]).output = jc.output ∧
    (applyKwargs jc [("pid", FVal.i pid)]).session_id = jc.session_id ∧
    (applyKwargs jc [("pid", FVal.i pid)]).repo_url = jc.repo_url :=
  ⟨rfl, rfl, rfl, rfl, rfl, rfl⟩

theorem fail3_fields (jc : Job) (m t : String) :
    (applyKwargs jc
        [("status", FVal.s "failed"), ("error", FVal.s m), ("ended_at", FVal.s t)]).status =
        "failed" ∧
    (applyKwargs jc
        [("status", FVal.s "failed"), ("error", FVal.s m), ("ended_at", FVal.s t)]).error =
        some m ∧
    (applyKwargs jc
        [("status", FVal.s "failed"), ("error", FVal.s m), ("ended_at", FVal.s t)]).ended_at =
        some t ∧
    (applyKwargs jc
        [("status", FVal.s "failed"), ("error", FVal.s m), ("ended_at", FVal.s t)]).started_at =
        jc.started_at ∧
    (applyKwargs jc
        [("status", FVal.s "failed"), ("error", FVal.s m), ("ended_at", FVal.s t)]).output =
        jc.output ∧
    (applyKwargs jc
        [("status", FVal.s "failed"), ("error", FVal.s m), ("ended_at", FVal.s t)]).session_id =
        jc.session_id :=
  ⟨rfl, rfl, rfl, rfl, rfl, rfl⟩

theorem fail4_fields (jc : Job) (m t : String) :
    (applyKwargs jc
        [("status", FVal.s "failed"), ("error", FVal.s m), ("exit_code", FVal.i (-1)),
         ("ended_at", FVal.s t)]).status = "failed" ∧
    (applyKwargs jc
        [("status", FVal.s "failed"), ("error", FVal.s m), ("exit_code", FVal.i (-1)),
         ("ended_at", FVal.s t)]).error = some m ∧
    (applyKwargs jc
        [("status", FVal.s "failed"), ("error", FVal.s m), ("exit_code", FVal.i (-1)),
         ("ended_at", FVal.s t)]).exit_code = some (-1) ∧
    (applyKwargs jc
        [("status", FVal.s "failed"), ("error", FVal.s m), ("exit_code", FVal.i (-1)),
         ("ended_at", FVal.s t)]).ended_at = some t ∧
    (applyKwargs jc
        [("status", FVal.s "failed"), ("error", FVal.s m), ("exit_code", FVal.i (-1)),
         ("ended_at", FVal.s t)]).started_at = jc.started_at ∧
    (applyKwargs jc
        [("status", FVal.s "failed"), ("error", FVal.s m), ("exit_code", FVal.i (-1)),
         ("ended_at", FVal.s t)]).output = jc.output :=
  ⟨rfl, rfl, rfl, rfl, rfl, rfl⟩

theorem prurl1_fields (jc : Job) (url : String) :
    (applyKwargs jc [("pr_url", FVal.s url)]).status = jc.status ∧
    (applyKwargs jc [("pr_url", FVal.s url)]).started_at = jc.started_at ∧
    (applyKwargs jc [("pr_url", FVal.s url)]).session_id = jc.session_id ∧
    (applyKwargs jc [("pr_url", FVal.s url)]).id = jc.id :=
  ⟨rfl, rfl, rfl, rfl⟩

set_option linter.unusedVariables false in
/-- C4: when repo_url is non-empty and the clone step (or default-branch
detection) raises, run_job finalizes the job as failed with an error
beginning "Clone failed: " followed by the cause, stamps ended_at, and
spawns no subprocess. -/
theorem clone_failure_spec (env : RunEnv) (st : Store) (j : Job)
    (prof : ClaudeProfile) (e : String)
    (hj : Store.get st j.id = some j)
    (hp : env.get_profile j.profile = some prof)
    (hrepo : j.repo_url ≠ "")
    (hprep : prepStage env j = .error e) :
    ∃ jf, (run_job env (rstOf st) j).2 = some jf ∧
      jf.status = "failed" ∧
      jf.error = some ("Clone failed: " ++ e) ∧
      jf.ended_at = some (env.clock 1) ∧
      (run_job env (rstOf st) j).1.effs = [] := by
  rw [run_job_prep_error_desc env st j prof e hj hp hprep]
  exact ⟨_, rfl, rfl, rfl, rfl, rfl⟩

/-- C4 witness: a concrete clone failure. -/
theorem clone_failure_spec_witness :
    Store.get stR jobR.id = some jobR ∧
    envCloneFail.get_profile jobR.profile = some ⟨3600, false⟩ ∧
    jobR.repo_url ≠ "" ∧
    prepStage envCloneFail jobR = .error "boom" ∧
    (∃ jf, (run_job envCloneFail (rstOf stR) jobR).2 = some jf ∧
      jf.status = "failed" ∧
      jf.error = some ("Clone failed: " ++ "boom") ∧
      jf.ended_at = some (envCloneFail.clock 1) ∧
      (run_job envCloneFail (rstOf stR) jobR).1.effs = []) :=
  ⟨rfl, rfl, by decide, rfl,
   clone_failure_spec envCloneFail stR jobR ⟨3600, false⟩ "boom" rfl rfl (by decide) rfl⟩

/-- C2 (amended): a subprocess exceeding the profile timeout leaves the
job failed with exit code -1, ended_at stamped and the timeout duration
in the error message; but the process is not killed (no kill signal is
recorded) and the buffered output is discarded (the output field keeps
its previous value). -/
theorem timeout_spec (env : RunEnv) (st : Store) (j : Job) (prof : ClaudeProfile)
    (p : Int) (cwd : Option String) (br : String)
    (hj : Store.get st j.id = some j)
    (hp : env.get_profile j.profile = some prof)
    (hprep : prepStage env j = .ok (cwd, br))
    (hmat : (match cwd with | some _ => env.materialize | none => Except.ok ()) =
      .ok ())
    (hsp : env.spawn = .spawned p .timeout) :
    ∃ jf, (run_job env (rstOf st) j).2 = some jf ∧
      jf.status = "failed" ∧
      jf.exit_code = some (-1) ∧
      jf.error = some ("Timeout after " ++ pyStrNat prof.timeout ++ "s") ∧
      jf.ended_at = some (env.clock 1) ∧
      jf.output = j.output ∧
      (run_job env (rstOf st) j).1.effs = [Effect.spawn] := by
  rw [run_job_exec_desc env st j prof cwd br hj hp hprep hmat]
  rw [exec_timeout_desc env _ j prof p
    (applyKwargs j [("status", FVal.s "running"), ("started_at", FVal.s (env.clock 0))])
    hsp
    (store_get_save_at st
      (applyKwargs j [("status", FVal.s "running"), ("started_at", FVal.s (env.clock 0))])
      j.id rfl)
    rfl]
  refine ⟨_, rfl, (fail4_fields _ _ _).1, (fail4_fields _ _ _).2.2.1, ?_, ?_, ?_, rfl⟩
  · exact (fail4_fields _ _ _).2.1
  · exact (fail4_fields _ _ _).2.2.2.1
  · rw [(fail4_fields _ _ _).2.2.2.2.2, (pid1_fields _ _).2.2.2.1,
      (run2_fields _ _).2.2.2.1]

/-- C2 witness: a concrete timed-out run. -/
theorem timeout_spec_witness :
    Store.get stQ jobQ.id = some jobQ ∧
    envTimeout.get_profile jobQ.profile = some ⟨3600, false⟩ ∧
    prepStage envTimeout jobQ = .ok (none, "main") ∧
    envTimeout.spawn = .spawned 7 .timeout ∧
    (∃ jf, (run_job envTimeout (rstOf stQ) jobQ).2 = some jf ∧
      jf.status = "failed" ∧
      jf.exit_code = some (-1) ∧
      jf.error = some ("Timeout after " ++ pyStrNat 3600 ++ "s") ∧
      jf.ended_at = some (envTimeout.clock 1) ∧
      jf.output = jobQ.output ∧
      (run_job envTimeout (rstOf stQ) jobQ).1.effs = [Effect.spawn]) :=
  ⟨rfl, rfl, rfl, rfl,
   timeout_spec envTimeout stQ jobQ ⟨3600, false⟩ 7 none "main" rfl rfl rfl rfl rfl⟩

/-- C2 counterexample: the timed-out run records no kill signal at all;
the only OS effect is the spawn itself. -/
theorem timeout_no_kill_cex : ¬claimC2Stated := by
  intro h
  obtain ⟨q, sg, hmem⟩ := h envTimeout stQ jobQ ⟨3600, false⟩ 7 rfl rfl rfl rfl
  rw [show (run_job envTimeout (rstOf stQ) jobQ).1.effs = [Effect.spawn] from rfl]
    at hmem
  simp at hmem

theorem sid1_fields (j2 : Job) (sv : String) :
    (applyKwargs j2 [("session_id", FVal.s sv)]).session_id = some sv ∧
    (applyKwargs j2 [("session_id", FVal.s sv)]).status = j2.status ∧
    (applyKwargs j2 [("session_id", FVal.s sv)]).started_at = j2.started_at :=
  ⟨rfl, rfl, rfl⟩

/-- C1 (amended): once run_job resolves the profile it persists a running
record with started_at stamped, and every subsequently persisted record
keeps that stamp and a status at or beyond running, with transitions
monotone and never leaving a terminal status; the missing-profile path
alone jumps straight from queued to failed with started_at left unset
(only ended_at stamped). -/
theorem runjob_state_machine (env : RunEnv) (st : Store) (j : Job)
    (hj : Store.get st j.id = some j)
    (hq : j.status = "queued")
    (hs : j.started_at = none) :
    (env.get_profile j.profile = none →
      (run_job env (rstOf st) j).1.hist =
        [applyKwargs j
          [("status", FVal.s "failed"),
           ("error", FVal.s ("Profile not found: " ++ j.profile)),
           ("ended_at", FVal.s (env.clock 0))]] ∧
      ∀ x ∈ (run_job env (rstOf st) j).1.hist,
        x.status = "failed" ∧ x.started_at = none ∧ x.ended_at = some (env.clock 0)) ∧
    (∀ prof, env.get_profile j.profile = some prof →
      List.Chain' stepOk (j :: (run_job env (rstOf st) j).1.hist) ∧
      (run_job env (rstOf st) j).1.hist ≠ [] ∧
      ∀ x ∈ (run_job env (rstOf st) j).1.hist,
        x.started_at = some (env.clock 0) ∧ 1 ≤ statusLevel x.status) := by
  have hjrs := (run2_fields j (env.clock 0)).1
  have hjrsa := (run2_fields j (env.clock 0)).2.1
  constructor
  · intro hp
    rw [run_job_no_profile_desc env st j hj hp]
    refine ⟨rfl, ?_⟩
    intro x hx
    rw [show (⟨_, [applyKwargs j
        [("status", FVal.s "failed"),
         ("error", FVal.s ("Profile not found: " ++ j.profile)),
         ("ended_at", FVal.s (env.clock 0))]], _, _⟩ : RState).hist =
      [applyKwargs j
        [("status", FVal.s "failed"),
         ("error", FVal.s ("Profile not found: " ++ j.profile)),
         ("ended_at", FVal.s (env.clock 0))]] from rfl] at hx
    rw [List.mem_singleton] at hx
    subst hx
    exact ⟨(fail3_fields _ _ _).1,
      by rw [(fail3_fields _ _ _).2.2.2.1, hs],
      (fail3_fields _ _ _).2.2.1⟩
  · intro prof hp
    cases hprep : prepStage env j with
    | error e =>
      rw [run_job_prep_error_desc env st j prof e hj hp hprep]
      dsimp only
      refine ⟨?_, by simp, ?_⟩
      · refine List.chain'_cons.mpr ⟨stepOk_from_queued _ _ hq,
          List.chain'_cons.mpr ⟨?_, List.chain'_singleton _⟩⟩
        exact stepOk_running_le _ _ hjrs (by rw [(fail3_fields _ _ _).1]; decide)
      · intro x hx
        simp only [List.mem_cons, List.mem_singleton, List.not_mem_nil, or_false] at hx
        rcases hx with rfl | rfl
        · exact ⟨hjrsa, by rw [hjrs]; decide⟩
        · exact ⟨by rw [(fail3_fields _ _ _).2.2.2.1, hjrsa],
            by rw [(fail3_fields _ _ _).1]; decide⟩
    | ok pr =>
      obtain ⟨cwd, br⟩ := pr
      cases hmatv : (match cwd with | some _ => env.materialize | none => Except.ok ()) with
      | error e =>
        have hcw : ∃ w, cwd = some w ∧ env.materialize = .error e := by
          cases cwd with
          | none => simp at hmatv
          | some w => exact ⟨w, rfl, by simpa using hmatv⟩
        obtain ⟨w, rfl, hmat⟩ := hcw
        rw [run_job_mat_error_desc env st j prof w br e hj hp hprep hmat]
        dsimp only
        refine ⟨?_, by simp, ?_⟩
        · refine List.chain'_cons.mpr ⟨stepOk_from_queued _ _ hq,
            List.chain'_cons.mpr ⟨?_, List.chain'_singleton _⟩⟩
          exact stepOk_running_le _ _ hjrs (by rw [(fail3_fields _ _ _).1]; decide)
        · intro x hx
          simp only [List.mem_cons, List.mem_singleton, List.not_mem_nil, or_false] at hx
          rcases hx with rfl | rfl
          · exact ⟨hjrsa, by rw [hjrs]; decide⟩
          · exact ⟨by rw [(fail3_fields _ _ _).2.2.2.1, hjrsa],
              by rw [(fail3_fields _ _ _).1]; decide⟩
      | ok u =>
        cases u
        rw [run_job_exec_desc env st j prof cwd br hj hp hprep hmatv]
        cases hsp : env.spawn with
        | fileNotFound =>
          rw [exec_fnf_desc env _ j prof
            (applyKwargs j [("status", FVal.s "running"),
              ("started_at", FVal.s (env.clock 0))])
            hsp (store_get_save_at st
              (applyKwargs j [("status", FVal.s "running"),
                ("started_at", FVal.s (env.clock 0))]) j.id rfl)]
          dsimp only
          refine ⟨?_, by simp, ?_⟩
          · refine List.chain'_cons.mpr ⟨stepOk_from_queued _ _ hq,
              List.chain'_cons.mpr ⟨?_, List.chain'_singleton _⟩⟩
            exact stepOk_running_le _ _ hjrs (by rw [(fail3_fields _ _ _).1]; decide)
          · intro x hx
            simp only [List.cons_append, List.nil_append, List.mem_cons,
              List.mem_singleton, List.not_mem_nil, or_false] at hx
            rcases hx with rfl | rfl
            · exact ⟨hjrsa, by rw [hjrs]; decide⟩
            · exact ⟨by rw [(fail3_fields _ _ _).2.2.2.1, hjrsa],
                by rw [(fail3_fields _ _ _).1]; decide⟩
        | spawned pid comm =>
          cases comm with
          | timeout =>
            rw [exec_timeout_desc env _ j prof pid
              (applyKwargs j [("status", FVal.s "running"),
                ("started_at", FVal.s (env.clock 0))])
              hsp (store_get_save_at st
              (applyKwargs j [("status", FVal.s "running"),
                ("started_at", FVal.s (env.clock 0))]) j.id rfl) rfl]
            dsimp only
            have hp1s : (applyKwargs (applyKwargs j [("status", FVal.s "running"),
                ("started_at", FVal.s (env.clock 0))]) [("pid", FVal.i pid)]).status =
                "running" := by
              rw [(pid1_fields _ _).1, hjrs]
            have hp1sa : (applyKwargs (applyKwargs j [("status", FVal.s "running"),
                ("started_at", FVal.s (env.clock 0))]) [("pid", FVal.i pid)]).started_at =
                some (env.clock 0) := by
              rw [(pid1_fields _ _).2.1, hjrsa]
            refine ⟨?_, by simp, ?_⟩
            · refine List.chain'_cons.mpr ⟨stepOk_from_queued _ _ hq,
                List.chain'_cons.mpr ⟨stepOk_of_eq _ _ (by rw [hp1s, hjrs]),
                  List.chain'_cons.mpr ⟨?_, List.chain'_singleton _⟩⟩⟩
              exact stepOk_running_le _ _ hp1s (by rw [(fail4_fields _ _ _).1]; decide)
            · intro x hx
              simp only [List.cons_append, List.nil_append, List.mem_cons,
                List.mem_singleton, List.not_mem_nil, or_false] at hx
              rcases hx with rfl | rfl | rfl
              · exact ⟨hjrsa, by rw [hjrs]; decide⟩
              · exact ⟨hp1sa, by rw [hp1s]; decide⟩
              · exact ⟨by rw [(fail4_fields _ _ _).2.2.2.2.1, hp1sa],
                  by rw [(fail4_fields _ _ _).1]; decide⟩
          | exc msg =>
            rw [exec_exc_desc env _ j prof pid msg
              (applyKwargs j [("status", FVal.s "running"),
                ("started_at", FVal.s (env.clock 0))])
              hsp (store_get_save_at st
              (applyKwargs j [("status", FVal.s "running"),
                ("started_at", FVal.s (env.clock 0))]) j.id rfl) rfl]
            dsimp only
            have hp1s : (applyKwargs (applyKwargs j [("status", FVal.s "running"),
                ("started_at", FVal.s (env.clock 0))]) [("pid", FVal.i pid)]).status =
                "running" := by
              rw [(pid1_fields _ _).1, hjrs]
            have hp1sa : (applyKwargs (applyKwargs j [("status", FVal.s "running"),
                ("started_at", FVal.s (env.clock 0))]) [("pid", FVal.i pid)]).started_at =
                some (env.clock 0) := by
              rw [(pid1_fields _ _).2.1, hjrsa]
            refine ⟨?_, by simp, ?_⟩
            · refine List.chain'_cons.mpr ⟨stepOk_from_queued _ _ hq,
                List.chain'_cons.mpr ⟨stepOk_of_eq _ _ (by rw [hp1s, hjrs]),
                  List.chain'_cons.mpr ⟨?_, List.chain'_singleton _⟩⟩⟩
              exact stepOk_running_le _ _ hp1s (by rw [(fail3_fields _ _ _).1]; decide)
            · intro x hx
              simp only [List.cons_append, List.nil_append, List.mem_cons,
                List.mem_singleton, List.not_mem_nil, or_false] at hx
              rcases hx with rfl | rfl | rfl
              · exact ⟨hjrsa, by rw [hjrs]; decide⟩
              · exact ⟨hp1sa, by rw [hp1s]; decide⟩
              · exact ⟨by rw [(fail3_fields _ _ _).2.2.2.1, hp1sa],
                  by rw [(fail3_fields _ _ _).1]; decide⟩
          | done rc out err =>
            have hp1s : (applyKwargs (applyKwargs j [("status", FVal.s "running"),
                ("started_at", FVal.s (env.clock 0))]) [("pid", FVal.i pid)]).status =
                "running" := by
              rw [(pid1_fields _ _).1, hjrs]
            have hp1sa : (applyKwargs (applyKwargs j [("status", FVal.s "running"),
                ("started_at", FVal.s (env.clock 0))]) [("pid", FVal.i pid)]).started_at =
                some (env.clock 0) := by
              rw [(pid1_fields _ _).2.1, hjrsa]
            cases hsid : extract_session_id env.jparse out with
            | none =>
              obtain ⟨hh, he, h2⟩ := exec_done_desc env
                ⟨st.save (applyKwargs j [("status", FVal.s "running"),
                  ("started_at", FVal.s (env.clock 0))]),
                 [applyKwargs j [("status", FVal.s "running"),
                  ("started_at", FVal.s (env.clock 0))]], [], 1⟩
                j prof pid rc out err
                (applyKwargs j [("status", FVal.s "running"),
                  ("started_at", FVal.s (env.clock 0))])
                (applyKwargs (applyKwargs j [("status", FVal.s "running"),
                  ("started_at", FVal.s (env.clock 0))]) [("pid", FVal.i pid)])
                (applyKwargs (applyKwargs (applyKwargs j
                    [("status", FVal.s "running"),
                     ("started_at", FVal.s (env.clock 0))]) [("pid", FVal.i pid)])
                  [("status", FVal.s (if rc = 0 then "succeeded" else "failed")),
                   ("exit_code", FVal.i rc),
                   ("output", FVal.s (pyTruncate out 50000)),
                   ("error", if err ≠ "" then FVal.s (pyTruncate err 10000) else FVal.null),
                   ("ended_at", FVal.s (env.clock 1))])
                [] _
                hsp (store_get_save_at st
              (applyKwargs j [("status", FVal.s "running"),
                ("started_at", FVal.s (env.clock 0))]) j.id rfl) rfl
                (by rw [hsid]) (by rw [hsid]) rfl rfl
              rw [hh]
              dsimp only
              have hjc3s := (final_kwargs_fields (applyKwargs (applyKwargs j
                  [("status", FVal.s "running"),
                   ("started_at", FVal.s (env.clock 0))]) [("pid", FVal.i pid)])
                (if rc = 0 then "succeeded" else "failed") rc (pyTruncate out 50000)
                (if err ≠ "" then FVal.s (pyTruncate err 10000) else FVal.null)
                (env.clock 1))
              rcases prH_cases (applyKwargs (applyKwargs (applyKwargs j
                    [("status", FVal.s "running"),
                     ("started_at", FVal.s (env.clock 0))]) [("pid", FVal.i pid)])
                  [("status", FVal.s (if rc = 0 then "succeeded" else "failed")),
                   ("exit_code", FVal.i rc),
                   ("output", FVal.s (pyTruncate out 50000)),
                   ("error", if err ≠ "" then FVal.s (pyTruncate err 10000) else FVal.null),
                   ("ended_at", FVal.s (env.clock 1))])
                  ((if rc = 0 then "succeeded" else "failed") = "succeeded" ∧
                    prof.auto_pr = true ∧ ¬(j.repo_url = ""))
                  env.auto_pr with hpe | ⟨url, hpe⟩ <;> rw [hpe]
              · refine ⟨?_, by simp, ?_⟩
                · refine List.chain'_cons.mpr ⟨stepOk_from_queued _ _ hq,
                    List.chain'_cons.mpr ⟨stepOk_of_eq _ _ (by rw [hp1s, hjrs]),
                      List.chain'_cons.mpr ⟨?_, List.chain'_singleton _⟩⟩⟩
                  exact stepOk_running_le _ _ hp1s
                    (by rw [hjc3s.2.1]; exact (statusLevel_final rc).1)
                · intro x hx
                  simp only [List.cons_append, List.nil_append, List.append_nil,
                    List.mem_cons, List.mem_singleton, List.not_mem_nil, or_false] at hx
                  rcases hx with rfl | rfl | rfl
                  · exact ⟨hjrsa, by rw [hjrs]; decide⟩
                  · exact ⟨hp1sa, by rw [hp1s]; decide⟩
                  · exact ⟨by rw [hjc3s.2.2.1, hp1sa],
                      by rw [hjc3s.2.1]; exact (statusLevel_final rc).1⟩
              · refine ⟨?_, by simp, ?_⟩
                · refine List.chain'_cons.mpr ⟨stepOk_from_queued _ _ hq,
                    List.chain'_cons.mpr ⟨stepOk_of_eq _ _ (by rw [hp1s, hjrs]),
                      List.chain'_cons.mpr ⟨?_,
                        List.chain'_cons.mpr ⟨stepOk_of_eq _ _ (prurl1_fields _ _).1,
                          List.chain'_singleton _⟩⟩⟩⟩
                  exact stepOk_running_le _ _ hp1s
                    (by rw [hjc3s.2.1]; exact (statusLevel_final rc).1)
                · intro x hx
                  simp only [List.cons_append, List.nil_append, List.append_nil,
                    List.mem_cons, List.mem_singleton, List.not_mem_nil, or_false] at hx
                  rcases hx with rfl | rfl | rfl | rfl
                  · exact ⟨hjrsa, by rw [hjrs]; decide⟩
                  · exact ⟨hp1sa, by rw [hp1s]; decide⟩
                  · exact ⟨by rw [hjc3s.2.2.1, hp1sa],
                      by rw [hjc3s.2.1]; exact (statusLevel_final rc).1⟩
                  · refine ⟨?_, ?_⟩
                    · rw [(prurl1_fields _ _).2.1, hjc3s.2.2.1, hp1sa]
                    · rw [(prurl1_fields _ _).1, hjc3s.2.1]
                      exact (statusLevel_final rc).1
            | some v =>
              obtain ⟨hh, he, h2⟩ := exec_done_desc env
                ⟨st.save (applyKwargs j [("status", FVal.s "running"),
                  ("started_at", FVal.s (env.clock 0))]),
                 [applyKwargs j [("status", FVal.s "running"),
                  ("started_at", FVal.s (env.clock 0))]], [], 1⟩
                j prof pid rc out err
                (applyKwargs j [("status", FVal.s "running"),
                  ("started_at", FVal.s (env.clock 0))])
                (applyKwargs (applyKwargs (applyKwargs j
                    [("status", FVal.s "running"),
                     ("started_at", FVal.s (env.clock 0))]) [("pid", FVal.i pid)])
                  (sessionKwargs (some v)))
                (applyKwargs (applyKwargs (applyKwargs (applyKwargs j
                      [("status", FVal.s "running"),
                       ("started_at", FVal.s (env.clock 0))]) [("pid", FVal.i pid)])
                    (sessionKwargs (some v)))
                  [("status", FVal.s (if rc = 0 then "succeeded" else "failed")),
                   ("exit_code", FVal.i rc),
                   ("output", FVal.s (pyTruncate out 50000)),
                   ("error", if err ≠ "" then FVal.s (pyTruncate err 10000) else FVal.null),
                   ("ended_at", FVal.s (env.clock 1))])
                [applyKwargs (applyKwargs (applyKwargs j
                    [("status", FVal.s "running"),
                     ("started_at", FVal.s (env.clock 0))]) [("pid", FVal.i pid)])
                  (sessionKwargs (some v))] _
                hsp (store_get_save_at st
              (applyKwargs j [("status", FVal.s "running"),
                ("started_at", FVal.s (env.clock 0))]) j.id rfl) rfl
                (by rw [hsid]) (by rw [hsid]) rfl rfl
              rw [hh]
              dsimp only
              have hses := sessionKwargs_fields (applyKwargs (applyKwargs j
                  [("status", FVal.s "running"),
                   ("started_at", FVal.s (env.clock 0))]) [("pid", FVal.i pid)]) v
              have hjc2s : (applyKwargs (applyKwargs (applyKwargs j
                  [("status", FVal.s "running"),
                   ("started_at", FVal.s (env.clock 0))]) [("pid", FVal.i pid)])
                  (sessionKwargs (some v))).status = "running" := by
                rw [hses.2.1, hp1s]
              have hjc2sa : (applyKwargs (applyKwargs (applyKwargs j
                  [("status", FVal.s "running"),
                   ("started_at", FVal.s (env.clock 0))]) [("pid", FVal.i pid)])
                  (sessionKwargs (some v))).started_at = some (env.clock 0) := by
                rw [hses.2.2.1, hp1sa]
              have hjc3s := (final_kwargs_fields (applyKwargs (applyKwargs (applyKwargs j
                  [("status", FVal.s "running"),
                   ("started_at", FVal.s (env.clock 0))]) [("pid", FVal.i pid)])
                  (sessionKwargs (some v)))
                (if rc = 0 then "succeeded" else "failed") rc (pyTruncate out 50000)
                (if err ≠ "" then FVal.s (pyTruncate err 10000) else FVal.null)
                (env.clock 1))
              rcases prH_cases (applyKwargs (applyKwargs (applyKwargs (applyKwargs j
                      [("status", FVal.s "running"),
                       ("started_at", FVal.s (env.clock 0))]) [("pid", FVal.i pid)])
                    (sessionKwargs (some v)))
                  [("status", FVal.s (if rc = 0 then "succeeded" else "failed")),
                   ("exit_code", FVal.i rc),
                   ("output", FVal.s (pyTruncate out 50000)),
                   ("error", if err ≠ "" then FVal.s (pyTruncate err 10000) else FVal.null),
                   ("ended_at", FVal.s (env.clock 1))])
                  ((if rc = 0 then "succeeded" else "failed") = "succeeded" ∧
                    prof.auto_pr = true ∧ ¬(j.repo_url = ""))
                  env.auto_pr with hpe | ⟨url, hpe⟩ <;> rw [hpe]
              · refine ⟨?_, by simp, ?_⟩
                · refine List.chain'_cons.mpr ⟨stepOk_from_queued _ _ hq,
                    List.chain'_cons.mpr ⟨stepOk_of_eq _ _ (by rw [hp1s, hjrs]),
                      List.chain'_cons.mpr ⟨stepOk_of_eq _ _ (by rw [hjc2s, hp1s]),
                        List.chain'_cons.mpr ⟨?_, List.chain'_singleton _⟩⟩⟩⟩
                  exact stepOk_running_le _ _ hjc2s
                    (by rw [hjc3s.2.1]; exact (statusLevel_final rc).1)
                · intro x hx
                  simp only [List.cons_append, List.nil_append, List.append_nil,
                    List.mem_cons, List.mem_singleton, List.not_mem_nil, or_false] at hx
                  rcases hx with rfl | rfl | rfl | rfl
                  · exact ⟨hjrsa, by rw [hjrs]; decide⟩
                  · exact ⟨hp1sa, by rw [hp1s]; decide⟩
                  · exact ⟨hjc2sa, by rw [hjc2s]; decide⟩
                  · exact ⟨by rw [hjc3s.2.2.1, hjc2sa],
                      by rw [hjc3s.2.1]; exact (statusLevel_final rc).1⟩
              · refine ⟨?_, by simp, ?_⟩
                · refine List.chain'_cons.mpr ⟨stepOk_from_queued _ _ hq,
                    List.chain'_cons.mpr ⟨stepOk_of_eq _ _ (by rw [hp1s, hjrs]),
                      List.chain'_cons.mpr ⟨stepOk_of_eq _ _ (by rw [hjc2s, hp1s]),
                        List.chain'_cons.mpr ⟨?_,
                          List.chain'_cons.mpr
                            ⟨stepOk_of_eq _ _ (prurl1_fields _ _).1,
                             List.chain'_singleton _⟩⟩⟩⟩⟩
                  exact stepOk_running_le _ _ hjc2s
                    (by rw [hjc3s.2.1]; exact (statusLevel_final rc).1)
                · intro x hx
                  simp only [List.cons_append, List.nil_append, List.append_nil,
                    List.mem_cons, List.mem_singleton, List.not_mem_nil, or_false] at hx
                  rcases hx with rfl | rfl | rfl | rfl | rfl
                  · exact ⟨hjrsa, by rw [hjrs]; decide⟩
                  · exact ⟨hp1sa, by rw [hp1s]; decide⟩
                  · exact ⟨hjc2sa, by rw [hjc2s]; decide⟩
                  · exact ⟨by rw [hjc3s.2.2.1, hjc2sa],
                      by rw [hjc3s.2.1]; exact (statusLevel_final rc).1⟩
                  · refine ⟨?_, ?_⟩
                    · rw [(prurl1_fields _ _).2.1, hjc3s.2.2.1, hjc2sa]
                    · rw [(prurl1_fields _ _).1, hjc3s.2.1]
                      exact (statusLevel_final rc).1

/-- C1 counterexample: with the profile missing, the job run_job persists
ends at status failed with started_at still unset, so started_at is not
set even though the status is past running. -/
theorem runjob_started_at_cex : ¬claimC1Stated := by
  intro h
  have hmem : ({ jobQ with status := "failed", error := some "Profile not found: code", ended_at := some "c" } : Job) ∈ (run_job envNoProfile (rstOf stQ) jobQ).1.hist := by
    rw [show (run_job envNoProfile (rstOf stQ) jobQ).1.hist = [{ jobQ with status := "failed", error := some "Profile not found: code", ended_at := some "c" }] from rfl]
    exact List.mem_singleton.mpr rfl
  have hx := h envNoProfile stQ jobQ rfl rfl rfl _ hmem
  exact (hx.mpr (by decide)) rfl

theorem extractGo_cons (jparse : JParse) (line : String) (rest : List String) :
    extractGo jparse (line :: rest) =
      (match lineSid jparse line with
       | some v => some v
       | none => extractGo jparse rest) := by
  by_cases hst : (pyStrip line).startsWith "\x7b"
  · cases hp : jparse (pyStrip line) with
    | none => simp [extractGo, lineSid, hst, hp]
    | some data =>
      by_cases htr : (pyOr (pyDictGet data "session_id")
          (pyDictGet data "sessionId")).truthy
      · simp [extractGo, lineSid, hst, hp, htr]
      · simp [extractGo, lineSid, hst, hp, htr]
  · simp [extractGo, lineSid, hst]

theorem extractGo_eq_findSome (jparse : JParse) (lines : List String) :
    extractGo jparse lines = lines.findSome? (lineSid jparse) := by
  induction lines with
  | nil => rfl
  | cons line rest ih =>
    rw [List.findSome?_cons, extractGo_cons]
    cases lineSid jparse line with
    | none => exact ih
    | some v => rfl

/-- C6: _extract_session_id scans the output's lines in reverse order and
returns the value of the first reversed line (the last line of the
output) that parses as a JSON object carrying a truthy session_id or
sessionId; when the subprocess completes, the finalized job's session_id
is set to that string, and is left unchanged when no line qualifies. -/
theorem session_id_extraction_spec :
    (∀ (jparse : JParse) (out : String),
      extract_session_id jparse out =
        ((pySplitlines out).reverse).findSome? (lineSid jparse)) ∧
    (∀ (env : RunEnv) (st : Store) (j : Job) (prof : ClaudeProfile)
        (pid rc : Int) (out err : String) (cwd : Option String) (br : String),
      Store.get st j.id = some j →
      env.get_profile j.profile = some prof →
      prepStage env j = .ok (cwd, br) →
      (match cwd with | some _ => env.materialize | none => Except.ok ()) = .ok () →
      env.spawn = .spawned pid (.done rc out err) →
      ∀ jf, (run_job env (rstOf st) j).2 = some jf →
        (extract_session_id env.jparse out = none → jf.session_id = j.session_id) ∧
        (∀ sv, extract_session_id env.jparse out = some (.str sv) →
          jf.session_id = some sv)) := by
  constructor
  · intro jparse out
    exact extractGo_eq_findSome jparse _
  · intro env st j prof pid rc out err cwd br hj hp hprep hmat hsp jf hjf
    rw [run_job_exec_desc env st j prof cwd br hj hp hprep hmat] at hjf
    constructor
    · intro hsid
      obtain ⟨-, -, h2⟩ := exec_done_desc env
        ⟨st.save (applyKwargs j [("status", FVal.s "running"),
          ("started_at", FVal.s (env.clock 0))]),
         [applyKwargs j [("status", FVal.s "running"),
          ("started_at", FVal.s (env.clock 0))]], [], 1⟩
        j prof pid rc out err
        (applyKwargs j [("status", FVal.s "running"),
          ("started_at", FVal.s (env.clock 0))])
        (applyKwargs (applyKwargs j [("status", FVal.s "running"),
          ("started_at", FVal.s (env.clock 0))]) [("pid", FVal.i pid)])
        (applyKwargs (applyKwargs (applyKwargs j
            [("status", FVal.s "running"),
             ("started_at", FVal.s (env.clock 0))]) [("pid", FVal.i pid)])
          [("status", FVal.s (if rc = 0 then "succeeded" else "failed")),
           ("exit_code", FVal.i rc),
           ("output", FVal.s (pyTruncate out 50000)),
           ("error", if err ≠ "" then FVal.s (pyTruncate err 10000) else FVal.null),
           ("ended_at", FVal.s (env.clock 1))])
        [] _
        hsp (store_get_save_at st
          (applyKwargs j [("status", FVal.s "running"),
            ("started_at", FVal.s (env.clock 0))]) j.id rfl) rfl
        (by rw [hsid]) (by rw [hsid]) rfl rfl
      rw [h2] at hjf
      have hjf2 : jf = List.getLastD
          (if (if rc = 0 then "succeeded" else "failed") = "succeeded" ∧
              prof.auto_pr = true ∧ ¬(j.repo_url = "") then
            (match env.auto_pr with
             | .ok (some url) =>
               if ¬(url = "") then [applyKwargs (applyKwargs (applyKwargs (applyKwargs j
                    [("status", FVal.s "running"),
                     ("started_at", FVal.s (env.clock 0))]) [("pid", FVal.i pid)])
                  [("status", FVal.s (if rc = 0 then "succeeded" else "failed")),
                   ("exit_code", FVal.i rc),
                   ("output", FVal.s (pyTruncate out 50000)),
                   ("error", if err ≠ "" then FVal.s (pyTruncate err 10000) else FVal.null),
                   ("ended_at", FVal.s (env.clock 1))]) [("pr_url", FVal.s url)]]
               else []
             | .ok none => []
             | .error _ => []) else [])
          (applyKwargs (applyKwargs (applyKwargs j
              [("status", FVal.s "running"),
               ("started_at", FVal.s (env.clock 0))]) [("pid", FVal.i pid)])
            [("status", FVal.s (if rc = 0 then "succeeded" else "failed")),
             ("exit_code", FVal.i rc),
             ("output", FVal.s (pyTruncate out 50000)),
             ("error", if err ≠ "" then FVal.s (pyTruncate err 10000) else FVal.null),
             ("ended_at", FVal.s (env.clock 1))]) :=
        (Option.some.inj hjf).symm
      rcases prH_cases (applyKwargs (applyKwargs (applyKwargs j
            [("status", FVal.s "running"),
             ("started_at", FVal.s (env.clock 0))]) [("pid", FVal.i pid)])
          [("status", FVal.s (if rc = 0 then "succeeded" else "failed")),
           ("exit_code", FVal.i rc),
           ("output", FVal.s (pyTruncate out 50000)),
           ("error", if err ≠ "" then FVal.s (pyTruncate err 10000) else FVal.null),
           ("ended_at", FVal.s (env.clock 1))])
          ((if rc = 0 then "succeeded" else "failed") = "succeeded" ∧
            prof.auto_pr = true ∧ ¬(j.repo_url = ""))
          env.auto_pr with hpe | ⟨url, hpe⟩ <;> rw [hpe] at hjf2 <;> subst hjf2
      · rw [show List.getLastD ([] : List Job) (applyKwargs (applyKwargs (applyKwargs j
            [("status", FVal.s "running"),
             ("started_at", FVal.s (env.clock 0))]) [("pid", FVal.i pid)])
          [("status", FVal.s (if rc = 0 then "succeeded" else "failed")),
           ("exit_code", FVal.i rc),
           ("output", FVal.s (pyTruncate out 50000)),
           ("error", if err ≠ "" then FVal.s (pyTruncate err 10000) else FVal.null),
           ("ended_at", FVal.s (env.clock 1))]) = applyKwargs (applyKwargs (applyKwargs j
            [("status", FVal.s "running"),
             ("started_at", FVal.s (env.clock 0))]) [("pid", FVal.i pid)])
          [("status", FVal.s (if rc = 0 then "succeeded" else "failed")),
           ("exit_code", FVal.i rc),
           ("output", FVal.s (pyTruncate out 50000)),
           ("error", if err ≠ "" then FVal.s (pyTruncate err 10000) else FVal.null),
           ("ended_at", FVal.s (env.clock 1))] from rfl]
        rw [(final_kwargs_fields _ _ _ _ _ _).2.2.2.2.2.1, (pid1_fields _ _).2.2.2.2.1,
          (run2_fields _ _).2.2.2.2.1]
      · rw [show ∀ a : Job, List.getLastD [a] (applyKwargs (applyKwargs (applyKwargs j
            [("status", FVal.s "running"),
             ("started_at", FVal.s (env.clock 0))]) [("pid", FVal.i pid)])
          [("status", FVal.s (if rc = 0 then "succeeded" else "failed")),
           ("exit_code", FVal.i rc),
           ("output", FVal.s (pyTruncate out 50000)),
           ("error", if err ≠ "" then FVal.s (pyTruncate err 10000) else FVal.null),
           ("ended_at", FVal.s (env.clock 1))]) = a from fun a => rfl]
        rw [(prurl1_fields _ _).2.2.1,
          (final_kwargs_fields _ _ _ _ _ _).2.2.2.2.2.1, (pid1_fields _ _).2.2.2.2.1,
          (run2_fields _ _).2.2.2.2.1]
    · intro sv hsid
      obtain ⟨-, -, h2⟩ := exec_done_desc env
        ⟨st.save (applyKwargs j [("status", FVal.s "running"),
          ("started_at", FVal.s (env.clock 0))]),
         [applyKwargs j [("status", FVal.s "running"),
          ("started_at", FVal.s (env.clock 0))]], [], 1⟩
        j prof pid rc out err
        (applyKwargs j [("status", FVal.s "running"),
          ("started_at", FVal.s (env.clock 0))])
        (applyKwargs (applyKwargs (applyKwargs j
            [("status", FVal.s "running"),
             ("started_at", FVal.s (env.clock 0))]) [("pid", FVal.i pid)])
          (sessionKwargs (some (.str sv))))
        (applyKwargs (applyKwargs (applyKwargs (applyKwargs j
              [("status", FVal.s "running"),
               ("started_at", FVal.s (env.clock 0))]) [("pid", FVal.i pid)])
            (sessionKwargs (some (.str sv))))
          [("status", FVal.s (if rc = 0 then "succeeded" else "failed")),
           ("exit_code", FVal.i rc),
           ("output", FVal.s (pyTruncate out 50000)),
           ("error", if err ≠ "" then FVal.s (pyTruncate err 10000) else FVal.null),
           ("ended_at", FVal.s (env.clock 1))])
        [applyKwargs (applyKwargs (applyKwargs j
            [("status", FVal.s "running"),
             ("started_at", FVal.s (env.clock 0))]) [("pid", FVal.i pid)])
          (sessionKwargs (some (.str sv)))] _
        hsp (store_get_save_at st
          (applyKwargs j [("status", FVal.s "running"),
            ("started_at", FVal.s (env.clock 0))]) j.id rfl) rfl
        (by rw [hsid]) (by rw [hsid]) rfl rfl
      rw [h2] at hjf
      have hjf2 := (Option.some.inj hjf).symm
      rcases prH_cases (applyKwargs (applyKwargs (applyKwargs (applyKwargs j
              [("status", FVal.s "running"),
               ("started_at", FVal.s (env.clock 0))]) [("pid", FVal.i pid)])
            (sessionKwargs (some (.str sv))))
          [("status", FVal.s (if rc = 0 then "succeeded" else "failed")),
           ("exit_code", FVal.i rc),
           ("output", FVal.s (pyTruncate out 50000)),
           ("error", if err ≠ "" then FVal.s (pyTruncate err 10000) else FVal.null),
           ("ended_at", FVal.s (env.clock 1))])
          ((if rc = 0 then "succeeded" else "failed") = "succeeded" ∧
            prof.auto_pr = true ∧ ¬(j.repo_url = ""))
          env.auto_pr with hpe | ⟨url, hpe⟩ <;> rw [hpe] at hjf2 <;> subst hjf2
      · rw [show ∀ d : Job, List.getLastD ([] : List Job) d = d from fun d => rfl]
        rw [(final_kwargs_fields _ _ _ _ _ _).2.2.2.2.2.1]
        exact (sid1_fields _ sv).1
      · rw [show ∀ (a d : Job), List.getLastD [a] d = a from fun a d => rfl]
        rw [(prurl1_fields _ _).2.2.1,
          (final_kwargs_fields _ _ _ _ _ _).2.2.2.2.2.1]
        exact (sid1_fields _ sv).1

/-- C6 witness: a run with no session line in stdout keeps session_id
absent, and the reverse-scan characterization holds on a concrete
output. -/
theorem session_id_extraction_witness :
    (extract_session_id (fun _ => none) "a\nb" =
      ((pySplitlines "a\nb").reverse).findSome? (lineSid (fun _ => none))) ∧
    (Store.get stQ jobQ.id = some jobQ ∧
     envBase.get_profile jobQ.profile = some ⟨3600, false⟩ ∧
     prepStage envBase jobQ = .ok (none, "main") ∧
     envBase.spawn = .spawned 7 (.done 0 "" "") ∧
     (run_job envBase (rstOf stQ) jobQ).2 = some { jobQ with status := "succeeded", exit_code := some 0, output := some "", started_at := some "c", ended_at := some "cc", pid := some 7 } ∧
     extract_session_id envBase.jparse "" = none ∧
     ({ jobQ with status := "succeeded", exit_code := some 0, output := some "", started_at := some "c", ended_at := some "cc", pid := some 7 } : Job).session_id = jobQ.session_id) :=
  ⟨session_id_extraction_spec.1 (fun _ => none) "a\nb",
   rfl, rfl, rfl, rfl, rfl, rfl,
   (session_id_extraction_spec.2 envBase stQ jobQ ⟨3600, false⟩ 7 0 "" "" none "main"
      rfl rfl rfl rfl rfl
      { jobQ with status := "succeeded", exit_code := some 0, output := some "", started_at := some "c", ended_at := some "cc", pid := some 7 }
      rfl).1 rfl⟩

/-- C1 witness: a concrete successful run whose persisted history is
chain-monotone with started_at stamped, and a concrete missing-profile
run that persists the single queued-to-failed record with started_at
left unset. -/
theorem runjob_state_machine_witness :
    (Store.get stQ jobQ.id = some jobQ ∧ jobQ.status = "queued" ∧
      jobQ.started_at = none) ∧
    (List.Chain' stepOk (jobQ :: (run_job envBase (rstOf stQ) jobQ).1.hist) ∧
     (run_job envBase (rstOf stQ) jobQ).1.hist ≠ [] ∧
     ∀ x ∈ (run_job envBase (rstOf stQ) jobQ).1.hist,
       x.started_at = some (envBase.clock 0) ∧ 1 ≤ statusLevel x.status) ∧
    ((run_job envNoProfile (rstOf stQ) jobQ).1.hist =
      [applyKwargs jobQ
        [("status", FVal.s "failed"),
         ("error", FVal.s ("Profile not found: " ++ jobQ.profile)),
         ("ended_at", FVal.s (envNoProfile.clock 0))]] ∧
     ∀ x ∈ (run_job envNoProfile (rstOf stQ) jobQ).1.hist,
       x.status = "failed" ∧ x.started_at = none ∧
         x.ended_at = some (envNoProfile.clock 0)) :=
  ⟨⟨rfl, rfl, rfl⟩,
   (runjob_state_machine envBase stQ jobQ rfl rfl rfl).2 ⟨3600, false⟩ rfl,
   (runjob_state_machine envNoProfile stQ jobQ rfl rfl rfl).1 rfl⟩
